import Mathlib

/-!
Verification of the KrishnaAI conversation-memory and context-assembly subsystem.

This file is a shallow embedding, in Lean 4, of the Python code of the
repository (src/krishna_agent.py, src/memory_manager.py,
src/scripture_langchain.py, src/scripture_reader.py), followed by theorems
settling the behavioural claims about it.  Every definition cites the source
lines it translates.  Machine-level side effects (SQLite, the OpenAI HTTP
call, `random`, `datetime.now()`) are made explicit: the database becomes a
record of lists of rows, the generation gateway and the random draws become
an explicit environment record, and the wall clock becomes a timestamp
supplied by that environment.
-/

set_option maxHeartbeats 1000000
set_option maxRecDepth 100000

namespace KrishnaAI

/-! ## String utilities (Python built-ins used by the source) -/

/-- Contiguous-sublist test on character lists. -/
def isInfixB (needle : List Char) : List Char → Bool
  | [] => needle.isPrefixOf ([] : List Char)
  | c :: rest => needle.isPrefixOf (c :: rest) || isInfixB needle rest

/-- Python `needle in haystack` (substring containment, on code points). -/
def substrB (needle haystack : String) : Bool :=
  isInfixB needle.toList haystack.toList

/-- Auxiliary scanner for `strFind`. -/
def strFindAux (needle : List Char) : List Char → Nat → Option Nat
  | [], i => if needle.isPrefixOf ([] : List Char) then some i else none
  | c :: rest, i =>
    if needle.isPrefixOf (c :: rest) then some i else strFindAux needle rest (i + 1)

/-- Python `haystack.find(needle)`: code-point index of the first occurrence,
`none` standing for Python's `-1`. -/
def strFind (haystack needle : String) : Option Nat :=
  strFindAux needle.toList haystack.toList 0

/-- Python `s.lower()` (character-wise; the repository's texts are ASCII,
where Python and `Char.toLower` agree). -/
def pyLower (s : String) : String := String.mk (s.toList.map Char.toLower)

/-- Scanner for `pySplitWs`: accumulate the current field reversed. -/
def wsSplitAux : List Char → List Char → List String
  | [], acc => if acc = [] then [] else [String.mk acc.reverse]
  | c :: rest, acc =>
    if c.isWhitespace then
      if acc = [] then wsSplitAux rest []
      else String.mk acc.reverse :: wsSplitAux rest []
    else wsSplitAux rest (c :: acc)

/-- Python `s.split()` with no argument: split on whitespace runs, dropping
empty fields. -/
def pySplitWs (s : String) : List String := wsSplitAux s.toList []

/-- Python `s.strip()` (whitespace at both ends). -/
def pyStrip (s : String) : String :=
  String.mk (((s.toList.dropWhile Char.isWhitespace).reverse.dropWhile
    Char.isWhitespace).reverse)

/-- Scanner for `pySplitChar`. -/
def splitCharAux (sep : Char) : List Char → List Char → List String
  | [], acc => [String.mk acc.reverse]
  | c :: rest, acc =>
    if c = sep then String.mk acc.reverse :: splitCharAux sep rest []
    else splitCharAux sep rest (c :: acc)

/-- Python `s.split(sep)` for a one-character separator: split at every
occurrence, keeping empty fields. -/
def pySplitChar (sep : Char) (s : String) : List String :=
  splitCharAux sep s.toList []

/-- Python `sep.join(l)`. -/
def pyJoin (sep : String) : List String → String
  | [] => ""
  | [x] => x
  | x :: rest => x ++ sep ++ pyJoin sep rest

/-- Python `s.startswith(p)`. -/
def pyStartsWith (s p : String) : Bool := p.toList.isPrefixOf s.toList

/-- Python `s.endswith(p)`. -/
def pyEndsWith (s p : String) : Bool := p.toList.reverse.isPrefixOf s.toList.reverse

/-- Python `s[:n]` (code points). -/
def pyTake (s : String) (n : Nat) : String := String.mk (s.toList.take n)

/-- Python `s[n:]` (code points). -/
def pyDrop (s : String) (n : Nat) : String := String.mk (s.toList.drop n)

/-- Python `s[:-1]`. -/
def pyDropLastChar (s : String) : String := String.mk s.toList.dropLast

/-- Auxiliary scanner for `wsToSingle`: the flag records whether the
previously emitted character was the collapse of a whitespace run. -/
def collapseWsAux : List Char → Bool → List Char
  | [], _ => []
  | c :: rest, prevWs =>
    if c.isWhitespace then
      (if prevWs then [] else [' ']) ++ collapseWsAux rest true
    else c :: collapseWsAux rest false

/-- Python `re.sub(r'\s+', ' ', s)`: collapse every whitespace run to a
single space. -/
def wsToSingle (s : String) : String :=
  String.mk (collapseWsAux s.toList false)

/-- Auxiliary scanner for `strReplace`, fuelled by the haystack length. -/
def replaceAllAux (needle repl : List Char) : Nat → List Char → List Char
  | 0, hay => hay
  | _ + 1, [] => []
  | fuel + 1, c :: rest =>
    if needle ≠ [] ∧ needle.isPrefixOf (c :: rest) then
      repl ++ replaceAllAux needle repl fuel ((c :: rest).drop needle.length)
    else
      c :: replaceAllAux needle repl fuel rest

/-- Python `s.replace(needle, repl)`: replace every non-overlapping
occurrence, scanning left to right. -/
def strReplace (s needle repl : String) : String :=
  String.mk (replaceAllAux needle.toList repl.toList s.length s.toList)

/-! ## Data model: rows of the durable store and messages of the in-process
LangChain buffer (src/krishna_agent.py lines 112-208 create the tables
`conversations`, `mood_checkins`, `conversation_summaries`). -/

/-- One row of the `conversations` table (user_id, timestamp, message,
sender); the integer primary key is immaterial to the claims. -/
structure Row where
  userId : String
  timestamp : String
  message : String
  sender : String
deriving DecidableEq, Repr

/-- One row of the `mood_checkins` table.  `save_mood` is called with the
raw result of `_detect_mood`, which may be Python `None` (stored as NULL),
hence the `Option`. -/
structure MoodRow where
  userId : String
  timestamp : String
  mood : Option String
deriving DecidableEq, Repr

/-- One row of the `conversation_summaries` table. -/
structure SummaryRow where
  userId : String
  timestamp : String
  summary : String
deriving DecidableEq, Repr

/-- Sender role of an in-process chat message.  The Python code stores
LangChain message objects whose `type` is `"human"`/`"ai"` and, on the
database fallback path, dicts whose `role` is `"user"`/`"assistant"`; every
accessor in src/krishna_agent.py treats those two encodings as the same two
roles, which this inductive captures.  Neither encoding ever carries a
`timestamp` key (the dicts are built at lines 284-288 with only `role` and
`content`), so no timestamp field exists here. -/
inductive Role where
  | user : Role
  | assistant : Role
deriving DecidableEq, Repr

/-- An in-process chat message (buffer entry / retrieved history entry). -/
structure ChatMsg where
  role : Role
  content : String
deriving DecidableEq, Repr

/-- The state of one `LangChainMemoryManager` (src/krishna_agent.py lines
40-527): the three SQLite partitions plus the single process-wide LangChain
`ConversationBufferMemory` (line 101), which is *not* keyed by session. -/
structure MemState where
  conversations : List Row
  moods : List MoodRow
  summaries : List SummaryRow
  buffer : List ChatMsg
deriving DecidableEq, Repr

/-- Comparison used to model `ORDER BY timestamp ASC` on the TEXT timestamp
column (SQLite compares TEXT bytewise; ISO-8601 strings compare
lexicographically). -/
def tsLe (a b : Row) : Prop := a.timestamp ≤ b.timestamp

instance : DecidableRel tsLe := fun a b => inferInstanceAs (Decidable (a.timestamp ≤ b.timestamp))

instance : IsTotal Row tsLe := ⟨fun a b => le_total a.timestamp b.timestamp⟩

instance : IsTrans Row tsLe := ⟨fun _ _ _ h h2 => le_trans h h2⟩

/-- Translation of `SELECT ... WHERE user_id = ? ORDER BY timestamp ASC` as a pure
function on the modelled table. -/
def selectByUserAsc (conversations : List Row) (uid : String) : List Row :=
  List.insertionSort tsLe (conversations.filter (fun r => r.userId = uid))

namespace LangChainMemoryManager

/-- Translation of `LangChainMemoryManager.save_message` (src/krishna_agent.py lines
210-261): INSERT the row into `conversations` and commit, then append the
message to the single shared LangChain buffer (`add_user_message` /
`add_ai_message`), with no session key.  `message` is already a string
here, so the tuple-coercion at lines 216-222 is the identity; the
degraded-write fallback (lines 246-261) only triggers on serialization
failure of the first INSERT, which the pure model cannot produce. -/
def save_message (st : MemState) (ts user_id message sender : String) : MemState :=
  { st with
    conversations := st.conversations ++ [⟨user_id, ts, message, sender⟩]
    buffer := st.buffer ++
      [⟨if sender = "user" then Role.user else Role.assistant, message⟩] }

/-- Translation of `LangChainMemoryManager.save_mood` (src/krishna_agent.py lines
297-320): INSERT into `mood_checkins`. -/
def save_mood (st : MemState) (ts user_id : String) (mood : Option String) : MemState :=
  { st with moods := st.moods ++ [⟨user_id, ts, mood⟩] }

/-- Translation of `LangChainMemoryManager.get_conversation_messages` (src/krishna_agent.py
lines 263-295): if the shared LangChain buffer is non-empty it is returned
whole — regardless of `user_id` and of `limit`; only when the buffer is
empty does the database fallback run
(`SELECT message, sender ... WHERE user_id = ? ORDER BY timestamp ASC
LIMIT ?`), building dicts that carry only `role` and `content`. -/
def get_conversation_messages (st : MemState) (user_id : String) (limit : Nat := 30) :
    List ChatMsg :=
  if st.buffer ≠ [] then st.buffer
  else
    ((selectByUserAsc st.conversations user_id).take limit).map
      (fun r => ⟨if r.sender = "user" then Role.user else Role.assistant, r.message⟩)

/-- Translation of `LangChainMemoryManager.load_conversation_history` (src/krishna_agent.py
lines 348-379): clear the buffer, then reload it from
`SELECT message, sender, timestamp ... ORDER BY timestamp ASC LIMIT ?`,
appending in result order (the timestamps themselves are not kept on the
buffer messages). -/
def load_conversation_history (st : MemState) (user_id : String) (limit : Nat := 30) :
    MemState :=
  { st with
    buffer := ((selectByUserAsc st.conversations user_id).take limit).map
      (fun r => ⟨if r.sender = "user" then Role.user else Role.assistant, r.message⟩) }

end LangChainMemoryManager

/-! ## src/memory_manager.py — the tombstone-capable `MemoryManager`.
This second manager class owns the `deleted_sessions` table (lines 73-80)
and the tombstone operations cited by the claims; note that nothing in
src/krishna_agent.py ever instantiates it (`KrishnaAgent.__init__` at line
545 attaches a `LangChainMemoryManager`, whose schema has no
`deleted_sessions` partition and whose class defines none of these
methods). -/

namespace MemoryManager

/-- The part of `MemoryManager`'s state the tombstone operations touch:
the `deleted_sessions` table, whose `session_id` column is UNIQUE. -/
structure TombState where
  deleted_sessions : List String
deriving DecidableEq, Repr

/-- Translation of `MemoryManager.mark_session_deleted` (src/memory_manager.py lines
266-280): `INSERT OR REPLACE INTO deleted_sessions` — on the UNIQUE
`session_id` column this is insertion into a set. -/
def mark_session_deleted (st : TombState) (session_id : String) : Bool × TombState :=
  (true,
    { st with
      deleted_sessions :=
        if session_id ∈ st.deleted_sessions then st.deleted_sessions
        else st.deleted_sessions ++ [session_id] })

/-- Translation of `MemoryManager.is_session_deleted` (src/memory_manager.py lines
282-294): membership test against `deleted_sessions`. -/
def is_session_deleted (st : TombState) (session_id : String) : Bool :=
  session_id ∈ st.deleted_sessions

/-- Translation of `MemoryManager.get_all_deleted_sessions` (src/memory_manager.py lines
296-305). -/
def get_all_deleted_sessions (st : TombState) : List String :=
  st.deleted_sessions

end MemoryManager

/-! ## src/scripture_langchain.py — the keyword-overlap retriever preferred
by `KrishnaAgent.__init__` (src/krishna_agent.py lines 554-559). -/

namespace ScriptureLangChain

/-- One split chunk of the corpus: `page_content` plus the metadata fields
`source_display` (filename without `.pdf`, set at load time, lines 60-62)
and `page` (PyPDF page number, `0` when absent, line 122). -/
structure Doc where
  content : String
  source : String
  page : Nat
deriving DecidableEq, Repr

/-- The per-document score of `_keyword_fallback` (src/scripture_langchain.py
line 109): `sum(1 for term in query_terms if term in content)` where
`content = doc.page_content.lower()`; duplicated query terms count twice,
which the filter-length over the term list reproduces. -/
def scoreDoc (query_terms : List String) (d : Doc) : Nat :=
  (query_terms.filter (fun t => substrB t (pyLower d.content))).length

/-- A result record of `_keyword_fallback` (src/scripture_langchain.py
lines 118-123). -/
structure Passage where
  content : String
  source : String
  score : Nat
  page : Nat
deriving DecidableEq, Repr

/-- Descending-score comparison for `matches.sort(key=lambda x: x[1],
reverse=True)` (line 114); Python's sort is stable and `insertionSort`
with this relation is stable the same way. -/
def byScoreDesc (a b : Doc × Nat) : Prop := b.2 ≤ a.2

instance : DecidableRel byScoreDesc := fun a b => inferInstanceAs (Decidable (b.2 ≤ a.2))

/-- Translation of `ScriptureLangChain._keyword_fallback` (src/scripture_langchain.py lines
99-125): score each document by query-term overlap, keep positive scores,
sort by score descending (stable), take the top `k`. -/
def _keyword_fallback (documents : List Doc) (query : String) (k : Nat) : List Passage :=
  if documents = [] then []
  else
    let query_terms := pySplitWs (pyLower query)
    let matchList := documents.filterMap (fun d =>
      let score := scoreDoc query_terms d
      if score > 0 then some (d, score) else none)
    let sorted := List.insertionSort byScoreDesc matchList
    (sorted.take k).map (fun p => ⟨p.1.content, p.1.source, p.2, p.1.page⟩)

/-- Translation of `ScriptureLangChain.find_relevant_passages` (lines 88-97): always the
keyword fallback (the vector store is never built, line 81-83). -/
def find_relevant_passages (documents : List Doc) (query : String) (k : Nat := 2) :
    List Passage :=
  _keyword_fallback documents query k

/-- Translation of `ScriptureLangChain.find_relevant_passage` (lines 127-140): top-1 as a
`(passage_text, source, page_id)` triple, `(None, None, None)` when nothing
matched. -/
def find_relevant_passage (documents : List Doc) (query : String) :
    Option String × Option String × Option Nat :=
  match find_relevant_passages documents query 1 with
  | p :: _ => (some p.content, some p.source, some p.page)
  | [] => (none, none, none)

end ScriptureLangChain

/-! ## src/scripture_reader.py — the fallback keyword retriever. -/

namespace ScriptureReader

/-- The punctuation class of `re.sub(r'([.,;:!?])([A-Za-z])', ...)`. -/
def isPunctFix (c : Char) : Bool :=
  c = '.' || c = ',' || c = ';' || c = ':' || c = '!' || c = '?'

/-- ASCII `[A-Za-z]`. -/
def isAsciiAlphaB (c : Char) : Bool :=
  ('A' ≤ c && c ≤ 'Z') || ('a' ≤ c && c ≤ 'z')

/-- Translation of `re.sub(r'([.,;:!?])([A-Za-z])', r'\1 \2', text)`: each match consumes
both characters, so scanning resumes after the letter. -/
def punctSpaceAux : List Char → List Char
  | [] => []
  | [c] => [c]
  | c1 :: c2 :: rest =>
    if isPunctFix c1 && isAsciiAlphaB c2 then c1 :: ' ' :: c2 :: punctSpaceAux rest
    else c1 :: punctSpaceAux (c2 :: rest)

/-- Translation of `ScriptureReader._preprocess_text` (src/scripture_reader.py lines
76-88): punctuation spacing fix, whitespace normalisation, strip. -/
def _preprocess_text (text : String) : String :=
  pyStrip (wsToSingle (String.mk (punctSpaceAux text.toList)))

/-- The best-match record built at src/scripture_reader.py lines 116-120. -/
structure RMatch where
  source : String
  content : String
  score : Nat
deriving DecidableEq, Repr

/-- Score of one cached source text (line 103): count of query words
occurring in the text (case-sensitive, the text is preprocessed at load
time). -/
def scoreText (query_words : List String) (text : String) : Nat :=
  (query_words.filter (fun w => substrB w text)).length

/-- Snippet extraction (lines 107-114): a window from `max(0, find-100)` to
`min(len, find+200)` around the first occurrence of the first matching
word, re-joined on single spaces (`' '.join(snippet.split())`). -/
def snippetAt (text : String) (idx : Nat) : String :=
  let start := idx - 100
  let stop := min text.length (idx + 200)
  let snippet := String.mk ((text.toList.drop start).take (stop - start))
  pyJoin " " (pySplitWs snippet)

/-- One iteration of the best-match loop of `find_relevant_passage`
(src/scripture_reader.py lines 101-122).  The inner `for word ... break`
selects the first query word contained in the text; `text.find(word)`
cannot miss for such a word, the defensive `none` arms keep the model
total. -/
def findStep (query_words : List String) (acc : Option RMatch × Nat)
    (entry : String × String) : Option RMatch × Nat :=
  let score := scoreText query_words entry.2
  if score > acc.2 then
    match query_words.find? (fun w => substrB w entry.2) with
    | some w =>
      match strFind entry.2 w with
      | some idx => (some ⟨entry.1, snippetAt entry.2 idx, score⟩, score)
      | none => acc
    | none => acc
  else acc

/-- Translation of `ScriptureReader.find_relevant_passage` (src/scripture_reader.py lines
90-124): `None` on an empty cache, otherwise the highest-scoring source
(first seen wins ties, since only strictly greater scores replace the
incumbent), or `None` when every score is zero. -/
def find_relevant_passage (cache : List (String × String)) (query : String) :
    Option RMatch :=
  if cache = [] then none
  else
    let q := _preprocess_text query
    let query_words := pySplitWs q
    (cache.foldl (findStep query_words) (none, 0)).1

end ScriptureReader

namespace KrishnaAgent

/-! ## Scripture-query expansion (src/krishna_agent.py lines 1256-1325). -/

/-- The enhanced-query cascade of `enhance_with_scripture`
(src/krishna_agent.py lines 1259-1324): nine topic categories, checked in
order over the lowercased query; unmatched queries pass through. -/
def expandScriptureQuery (user_query : String) : String :=
  let lower := pyLower user_query
  if (["loss", "lost", "died", "passed away", "grief", "death", "mourn"] : List String).any
      (fun w => substrB w lower) then
    let specific_topics :=
      (if substrB "friend" lower || substrB "friendship" lower then
        ["loss of friendship"] else []) ++
      (if substrB "parent" lower || substrB "mother" lower || substrB "father" lower then
        ["loss of parent"] else []) ++
      (if substrB "child" lower then ["loss of child"] else []) ++
      (if substrB "spouse" lower || substrB "wife" lower || substrB "husband" lower ||
          substrB "partner" lower then ["loss of spouse"] else [])
    if specific_topics ≠ [] then
      "scripture on dealing with " ++ pyJoin " " specific_topics ++
        " grief death impermanence of form"
    else
      "scripture on dealing with loss grief and death impermanence of physical form transmigration of soul"
  else if (["depress", "anxiety", "stress", "mental health", "therapy", "counseling",
      "struggle", "hopeless"] : List String).any (fun w => substrB w lower) then
    if substrB "depress" lower then
      "scripture on overcoming depression sadness mental darkness finding light purpose"
    else if substrB "anxiety" lower || substrB "worry" lower || substrB "stress" lower then
      "scripture on calming anxiety reducing stress finding peace of mind"
    else if substrB "anger" lower then
      "scripture on controlling anger managing emotions peace"
    else
      "scripture on mental health emotional balance inner wisdom peace"
  else if (["purpose", "meaning", "why am i here", "dharma", "duty", "direction"] :
      List String).any (fun w => substrB w lower) then
    "scripture on finding purpose dharma duty meaning of life"
  else if (["relationship", "love", "partner", "marriage", "romantic"] : List String).any
      (fun w => substrB w lower) then
    if substrB "breakup" lower || substrB "divorce" lower || substrB "ex" lower then
      "scripture on healing from relationship endings attachment detachment"
    else
      "scripture on love relationships attachment and devotion"
  else if (["family", "parent", "child", "duty to", "obligation", "responsibility"] :
      List String).any (fun w => substrB w lower) then
    "scripture on family duty dharma responsibility"
  else if (["career", "job", "work", "profession", "calling", "vocation"] : List String).any
      (fun w => substrB w lower) then
    if substrB "lost job" lower || substrB "fired" lower || substrB "laid off" lower then
      "scripture on dealing with career setbacks path forward dharma"
    else
      "scripture on right livelihood work as service purpose in action"
  else if (["meditat", "practice", "spiritual", "consciousness", "mindful"] : List String).any
      (fun w => substrB w lower) then
    "scripture on meditation practice consciousness awareness"
  else if (["decision", "choice", "right thing", "wrong", "moral", "ethics", "dilemma"] :
      List String).any (fun w => substrB w lower) then
    "scripture on ethical decisions moral choices dharma karma"
  else if (["who am i", "self", "identity", "true nature", "authentic", "real me"] :
      List String).any (fun w => substrB w lower) then
    "scripture on self-knowledge atman true identity beyond ego"
  else user_query

/-- Translation of `KrishnaAgent.enhance_with_scripture` (src/krishna_agent.py lines
1247-1355), composed with the `ScriptureLangChain` processor that
`__init__` prefers (lines 554-559).  That processor has a
`find_relevant_passage` attribute returning a 3-tuple for every query, so
the first call at lines 1327-1332 always returns; the LangChain `k=1` path
(1335-1340) and the original-query retry (1343-1348) are unreachable. -/
def enhance_with_scripture (documents : List ScriptureLangChain.Doc) (user_query : String) :
    Option String × Option String × Option Nat :=
  ScriptureLangChain.find_relevant_passage documents (expandScriptureQuery user_query)

/-! ## `KrishnaAgent._detect_mood` (src/krishna_agent.py lines 1206-1221). -/

/-- The mood keyword table, in Python dict insertion order. -/
def mood_keywords : List (String × List String) :=
  [("happy", ["happy", "joy", "excited", "great", "blessed", "wonderful"]),
   ("sad", ["sad", "down", "depressed", "unhappy", "lost", "miserable", "alone"]),
   ("anxious", ["anxious", "worried", "nervous", "stress", "fear", "afraid", "panic"]),
   ("peaceful", ["peace", "calm", "serene", "content", "quiet", "still"]),
   ("angry", ["angry", "frustrated", "mad", "upset", "annoyed", "irritated"])]

/-- Translation of `_detect_mood`: the first mood whose keyword list hits the lowercased
message; `None` otherwise. -/
def _detect_mood (message : String) : Option String :=
  let lower := pyLower message
  (mood_keywords.find? (fun mk => mk.2.any (fun w => substrB w lower))).map (fun mk => mk.1)

/-! ## Regex scanners for `_track_entities` (src/krishna_agent.py lines
2101-2189) and `_extract_key_topics` (line 1679).  These reproduce the
specific `re.findall` patterns of the source: every pattern begins and ends
with `\b` adjacent to a word character, so a match may start only where the
previous character is not a word character, and must end where the next
character is not one; alternations are tried in written order and the
star/option quantifiers are greedy with regex backtracking, reproduced
below by enumerating candidate extents longest-first. -/

/-- Translation of `\w` (ASCII range; the source messages are ASCII). -/
def wordChar (c : Char) : Bool := c.isAlphanum || c = '_'

/-- The zero-width `\b` at the end of a match: the next character, if any,
is not a word character. -/
def endB : List Char → Bool
  | [] => true
  | c :: _ => !wordChar c

/-- Translation of `re.findall` driver: scan left to right, attempt a match wherever the
previous character is not a word character (all patterns open with `\b` and
a word character), emit the capture and resume after the match (every
pattern closes with `\b` after a word character, so the resume position has
a word character before it). -/
def findAllAux (matchAt : List Char → Option (String × List Char)) :
    Nat → Bool → List Char → List String
  | 0, _, _ => []
  | _ + 1, _, [] => []
  | fuel + 1, prevWord, c :: rest =>
    if !prevWord then
      match matchAt (c :: rest) with
      | some (out, remaining) => out :: findAllAux matchAt fuel true remaining
      | none => findAllAux matchAt fuel (wordChar c) rest
    else findAllAux matchAt fuel (wordChar c) rest

/-- All matches of a pattern in a string, in scan order. -/
def findAll (matchAt : List Char → Option (String × List Char)) (s : List Char) :
    List String :=
  findAllAux matchAt s.length false s

/-- Match a literal. -/
def stripLit (lit : List Char) (s : List Char) : Option (List Char) :=
  if lit.isPrefixOf s then some (s.drop lit.length) else none

/-- Translation of `\s+` (greedy; the following pattern element is never whitespace, so
backtracking the run cannot help). -/
def munchWs1 (s : List Char) : Option (List Char × List Char) :=
  let ws := s.takeWhile Char.isWhitespace
  if ws ≠ [] then some (ws, s.dropWhile Char.isWhitespace) else none

/-- Translation of `[A-Z][a-z]+` (greedy; shrinking the lowercase run leaves a lowercase
letter next, which can satisfy no later element of these patterns). -/
def matchCapWord : List Char → Option (List Char × List Char)
  | [] => none
  | c :: rest =>
    if c.isUpper then
      let low := rest.takeWhile (fun d => 'a' ≤ d && d ≤ 'z')
      if low ≠ [] then some (c :: low, rest.dropWhile (fun d => 'a' ≤ d && d ≤ 'z'))
      else none
    else none

/-- Candidate extents of `[A-Z][a-z]+(?:\s+[A-Z][a-z]+)*`, shortest first:
`acc` is the capture matched so far, `s` the remainder. -/
def capPhraseCands : Nat → List Char → List Char → List (List Char × List Char)
  | 0, acc, s => [(acc, s)]
  | fuel + 1, acc, s =>
    (acc, s) ::
      (match munchWs1 s with
       | none => []
       | some (ws, r1) =>
         match matchCapWord r1 with
         | none => []
         | some (w1, r2) => capPhraseCands fuel (acc ++ ws ++ w1) r2)

/-- Translation of `[A-Z][a-z]+(?:\s+[A-Z][a-z]+)*\b`: greedy star, backtracked until the
trailing boundary holds — i.e. the longest candidate whose end sits at a
boundary. -/
def matchCapPhrase (s : List Char) : Option (List Char × List Char) :=
  match matchCapWord s with
  | none => none
  | some (w0, r0) =>
    ((capPhraseCands s.length w0 r0).filter (fun c => endB c.2)).getLast?

/-- One alternative of `\b(?:in|at|to|from)\s+([A-Z][a-z]+(?:...)*)\b`
(src/krishna_agent.py line 2130); `re.findall` returns capture group 1,
the place phrase without the preposition. -/
def tryPrep (prep : List Char) (s : List Char) : Option (String × List Char) :=
  match stripLit prep s with
  | none => none
  | some r =>
    match munchWs1 r with
    | none => none
    | some (_, r1) =>
      match matchCapPhrase r1 with
      | some (cap, rest) => some (String.mk cap, rest)
      | none => none

/-- The places pattern: the four prepositions tried in written order, each
with full continuation (regex alternation backtracking). -/
def matchPlaceAt (s : List Char) : Option (String × List Char) :=
  match tryPrep ("in".toList) s with
  | some out => some out
  | none =>
    match tryPrep ("at".toList) s with
    | some out => some out
    | none =>
      match tryPrep ("to".toList) s with
      | some out => some out
      | none => tryPrep ("from".toList) s

/-- The event-context pattern `\b\w+\s+<indicator>\b` (src/krishna_agent.py
line 2141); no capture group, so `findall` yields the whole match. -/
def matchEventAt (ind : List Char) (s : List Char) : Option (String × List Char) :=
  let w := s.takeWhile wordChar
  if w = [] then none
  else
    match munchWs1 (s.dropWhile wordChar) with
    | none => none
    | some (ws, r2) =>
      match stripLit ind r2 with
      | none => none
      | some r3 => if endB r3 then some (String.mk (w ++ ws ++ ind), r3) else none

/-- Alternation with continuation backtracking: try each literal in order,
run the continuation, fall through to the next alternative on failure. -/
def matchAltThen (alts : List (List Char)) (s : List Char)
    (k : List Char → List Char → Option (String × List Char)) :
    Option (String × List Char) :=
  match alts with
  | [] => none
  | a :: rest =>
    match stripLit a s with
    | some r =>
      match k a r with
      | some out => some out
      | none => matchAltThen rest s k
    | none => matchAltThen rest s k

/-- Date pattern 1, `\b(?:yesterday|today|tomorrow)\b`
(src/krishna_agent.py line 2150). -/
def matchDateP1 (s : List Char) : Option (String × List Char) :=
  matchAltThen (["yesterday", "today", "tomorrow"].map String.toList) s
    (fun a r => if endB r then some (String.mk a, r) else none)

/-- Date pattern 2, `\b(?:last|next|this)\s+(?:week|month|year|monday|...|
sunday)\b` (line 2151). -/
def matchDateP2 (s : List Char) : Option (String × List Char) :=
  matchAltThen (["last", "next", "this"].map String.toList) s (fun a r =>
    match munchWs1 r with
    | none => none
    | some (ws, r1) =>
      matchAltThen (["week", "month", "year", "monday", "tuesday", "wednesday",
        "thursday", "friday", "saturday", "sunday"].map String.toList) r1 (fun b r2 =>
        if endB r2 then some (String.mk (a ++ ws ++ b), r2) else none))

/-- The lowercase month-name alternation of date patterns 3 and 4. -/
def monthsAlts : List (List Char) :=
  ["january", "february", "march", "april", "may", "june", "july", "august",
   "september", "october", "november", "december"].map String.toList

/-- The ordinal-suffix alternation `st|nd|rd|th`. -/
def suffixAlts : List (List Char) :=
  ["st", "nd", "rd", "th"].map String.toList

/-- Greedy candidates of `\d{1,2}`: two digits before one. -/
def matchDigits12 : List Char → List (List Char × List Char)
  | [] => []
  | [d1] => if d1.isDigit then [([d1], [])] else []
  | d1 :: d2 :: r =>
    if d1.isDigit && d2.isDigit then [([d1, d2], r), ([d1], d2 :: r)]
    else if d1.isDigit then [([d1], d2 :: r)] else []

/-- Translation of `(?:st|nd|rd|th)?\b`: a present suffix is preferred (greedy option);
each alternative must be followed by a boundary. -/
def optSuffixB (r : List Char) : Option (List Char × List Char) :=
  match suffixAlts.findSome? (fun suf =>
    match stripLit suf r with
    | some r2 => if endB r2 then some (suf, r2) else none
    | none => none) with
  | some x => some x
  | none => if endB r then some (([] : List Char), r) else none

/-- Date pattern 3, `\b(?:<month>)\s+\d{1,2}(?:st|nd|rd|th)?\b` (line
2152). -/
def matchDateP3 (s : List Char) : Option (String × List Char) :=
  matchAltThen monthsAlts s (fun m r =>
    match munchWs1 r with
    | none => none
    | some (ws, r1) =>
      (matchDigits12 r1).findSome? (fun dr =>
        match optSuffixB dr.2 with
        | some (suf, r3) => some (String.mk (m ++ ws ++ dr.1 ++ suf), r3)
        | none => none))

/-- Greedy candidates of `(?:st|nd|rd|th)?` with no boundary demand. -/
def optSuffix (r : List Char) : List (List Char × List Char) :=
  (suffixAlts.filterMap (fun suf => (stripLit suf r).map (fun r2 => (suf, r2)))) ++ [([], r)]

/-- Greedy candidates of `(?:of\s+)?`. -/
def optOf (r : List Char) : List (List Char × List Char) :=
  (match stripLit ("of".toList) r with
   | some r1 =>
     match munchWs1 r1 with
     | some (ws, r2) => [("of".toList ++ ws, r2)]
     | none => []
   | none => []) ++ [([], r)]

/-- Date pattern 4, `\b\d{1,2}(?:st|nd|rd|th)?\s+(?:of\s+)?(?:<month>)\b`
(line 2153). -/
def matchDateP4 (s : List Char) : Option (String × List Char) :=
  (matchDigits12 s).findSome? (fun dr =>
    (optSuffix dr.2).findSome? (fun sr =>
      match munchWs1 sr.2 with
      | none => none
      | some (ws, r3) =>
        (optOf r3).findSome? (fun og =>
          matchAltThen monthsAlts og.2 (fun m r5 =>
            if endB r5 then some (String.mk (dr.1 ++ sr.1 ++ ws ++ og.1 ++ m), r5)
            else none))))

/-- The name pattern `\b[A-Z][a-z]+\b` of `_extract_key_topics`
(src/krishna_agent.py line 1679). -/
def matchNameAt (s : List Char) : Option (String × List Char) :=
  match matchCapWord s with
  | some (w, r) => if endB r then some (String.mk w, r) else none
  | none => none

/-! ## `KrishnaAgent._track_entities` (src/krishna_agent.py lines
2101-2189). -/

/-- The four per-message entity lists built at lines 2110-2159 (appends, in
discovery order, duplicates kept). -/
structure Extracted where
  people : List String
  places : List String
  events : List String
  dates : List String
deriving DecidableEq, Repr

/-- Lowercased first-person stoplist of the people scan (line 2124). -/
def peopleStopLower : List String := ["i", "i\x27m", "i\x27ll", "i\x27ve", "i\x27d"]

/-- Cased stoplist of the people scan (line 2126). -/
def peopleStopCased : List String :=
  ["Krishna", "Gita", "Bhagavad", "Upanishads", "God", "Hindu", "India"]

/-- Does the first character satisfy Python `str.isupper()`? -/
def headIsUpper (w : String) : Bool :=
  match w.toList with
  | c :: _ => c.isUpper
  | [] => false

/-- People extraction (lines 2117-2127): capitalised whitespace-split
tokens that are not sentence-initial (`split('.')` sentences) and pass the
two stoplists.  `word.strip()` after a whitespace split is the identity. -/
def extract_people (user_message : String) : List String :=
  (pySplitChar '.' user_message).flatMap (fun sentence =>
    (pySplitWs sentence).enum.filterMap (fun iw =>
      if iw.1 > 0 ∧ iw.2 ≠ "" ∧ headIsUpper iw.2 = true ∧
          pyLower iw.2 ∉ peopleStopLower ∧ iw.2 ∉ peopleStopCased
      then some iw.2 else none))

/-- Event-noun list (lines 2136-2137). -/
def event_indicators : List String :=
  ["wedding", "ceremony", "funeral", "birthday", "anniversary", "meeting",
   "conference", "interview", "trip", "vacation", "travel", "journey", "exam", "test"]

/-- Events extraction (lines 2138-2146): for each indicator present in the
lowercased message, all `\b\w+\s+<indicator>\b` matches, or the bare
indicator when the context pattern finds none. -/
def extract_events (user_message : String) : List String :=
  event_indicators.flatMap (fun ind =>
    if substrB ind (pyLower user_message) then
      let ms := findAll (matchEventAt ind.toList) (pyLower user_message).toList
      if ms ≠ [] then ms else [ind]
    else [])

/-- Dates extraction (lines 2148-2159): the four patterns in order, all
matches of each, over the lowercased message. -/
def extract_dates (user_message : String) : List String :=
  let lower := (pyLower user_message).toList
  findAll matchDateP1 lower ++ findAll matchDateP2 lower ++
  findAll matchDateP3 lower ++ findAll matchDateP4 lower

/-- The per-message extraction of `_track_entities` (lines 2110-2159):
people first, then places filtered against the collected people list and a
stoplist (lines 2130-2133), events, dates. -/
def _track_entities_extract (user_message : String) : Extracted :=
  let people := extract_people user_message
  let places := (findAll matchPlaceAt user_message.toList).filter
    (fun p => p ∉ people ∧ p ∉ (["Krishna", "Gita", "Bhagavad", "God"] : List String))
  { people := people
    places := places
    events := extract_events user_message
    dates := extract_dates user_message }

/-- The per-session entity registry `self.session_entities`
(src/krishna_agent.py lines 574-579): four Python sets. -/
structure EntityReg where
  people : Finset String
  places : Finset String
  events : Finset String
  dates : Finset String
deriving DecidableEq

/-- Translation of `set.add` over a list of discovered items (lines 2170-2173). -/
def insertAll (s : Finset String) (l : List String) : Finset String :=
  l.foldl (fun acc i => insert i acc) s

/-- The registry update of `_track_entities` (lines 2161-2173): set union
with the extracted items, category by category. -/
def updateReg (r : EntityReg) (e : Extracted) : EntityReg :=
  { people := insertAll r.people e.people
    places := insertAll r.places e.places
    events := insertAll r.events e.events
    dates := insertAll r.dates e.dates }

end KrishnaAgent

/-- The mutable state of one `KrishnaAgent` relevant to the claims:
`self.session_id` (line 570), the attached `LangChainMemoryManager` (line
545), and `self.session_entities` (lines 574-579). -/
structure AgentState where
  session_id : String
  mem : MemState
  session_entities : KrishnaAgent.EntityReg

namespace KrishnaAgent

/-- Translation of `KrishnaAgent._track_entities` (src/krishna_agent.py lines 2101-2189):
extract the per-message entities and merge them into the session registry
by set union; the extraction is a pure function of the message text. -/
def _track_entities (st : AgentState) (user_message : String) : Extracted × AgentState :=
  let e := _track_entities_extract user_message
  (e, { st with session_entities := updateReg st.session_entities e })

/-! ## `KrishnaAgent._extract_key_topics` (src/krishna_agent.py lines
1626-2018).  The seven accumulator lists are initialised once (lines
1641-1673) and persist across the message loop (line 1675); each iteration
merges the category lists into `key_topics`. -/

/-- The accumulators of `_extract_key_topics`. -/
structure KTState where
  key_topics : List String
  loss_related_keywords : List String
  health_related_topics : List String
  relationship_topics : List String
  mentioned_names : List String
  career_topics : List String
  spiritual_topics : List String
deriving Repr

/-- Health indicator list (lines 1649-1651). -/
def health_indicators : List String :=
  ["sick", "health", "pain", "hurt", "doctor", "hospital", "disease", "condition",
   "therapy", "medication", "depression", "anxiety", "disorder", "diagnosis",
   "symptom", "treatment", "surgery", "recovery", "illness"]

/-- The per-sentence health classification (lines 1690-1728); the
`if not health_related_topics` defaults read the accumulator mid-loop. -/
def classifyHealth (sentence : String) (acc : List String) : List String :=
  if (["depress", "anxiety", "panic", "mental", "therapy", "psycholog"] : List String).any
      (fun t => substrB t sentence) then
    let acc := if substrB "depress" sentence then acc ++ ["depression"] else acc
    let acc := if substrB "anxiety" sentence || substrB "panic" sentence then
      acc ++ ["anxiety disorder"] else acc
    let acc := if substrB "therapy" sentence then acc ++ ["therapy treatment"] else acc
    if acc = [] then acc ++ ["mental health concerns"] else acc
  else if (["pain", "ache", "hurt", "chronic"] : List String).any
      (fun t => substrB t sentence) then
    if substrB "back" sentence || substrB "spine" sentence then acc ++ ["back pain"]
    else if substrB "head" sentence || substrB "migraine" sentence then acc ++ ["headaches"]
    else if substrB "stomach" sentence || substrB "digest" sentence then
      acc ++ ["digestive issues"]
    else if substrB "joint" sentence || substrB "arthritis" sentence then
      acc ++ ["joint pain"]
    else acc ++ ["physical pain"]
  else if (["doctor", "hospital", "surgery", "medication"] : List String).any
      (fun t => substrB t sentence) then
    let acc := if substrB "surgery" sentence then acc ++ ["upcoming surgery"] else acc
    let acc := if substrB "medication" sentence then acc ++ ["medication treatment"] else acc
    let acc := if substrB "doctor" sentence then acc ++ ["doctor\x27s appointment"] else acc
    if acc = [] then acc ++ ["medical treatment"] else acc
  else acc ++ ["health concerns"]

/-- Health scan of one message (lines 1684-1728): indicator × sentence
double loop. -/
def healthStep (msg_lower : String) (acc : List String) : List String :=
  health_indicators.foldl (fun acc ind =>
    if substrB ind msg_lower then
      (pySplitChar '.' msg_lower).foldl (fun acc sentence =>
        if substrB ind sentence then classifyHealth sentence acc else acc) acc
    else acc) acc

/-- Translation of `for topic in add: if topic not in kt: kt.append(topic)` — the dedup
merge used at lines 1730-1733, 1890-1893, 1949-1952, 1996-1999. -/
def mergeDedup (kt add : List String) : List String :=
  add.foldl (fun kt t => if t ∈ kt then kt else kt ++ [t]) kt

/-- Loss indicator list (line 1645). -/
def loss_indicators : List String :=
  ["lost", "loss", "died", "passed", "gone", "missing", "grief"]

/-- Per-sentence loss classification (lines 1742-1758). -/
def classifyLoss (sentence : String) : String :=
  if substrB "friend" sentence then "loss of a friend"
  else if substrB "parent" sentence || substrB "father" sentence ||
      substrB "mother" sentence then "loss of a parent"
  else if substrB "child" sentence then "loss of a child"
  else if substrB "relative" sentence || substrB "family" sentence then
    "loss of a family member"
  else if substrB "pet" sentence || substrB "dog" sentence || substrB "cat" sentence then
    "loss of a pet"
  else if substrB "job" sentence || substrB "work" sentence then "loss of job"
  else if substrB "home" sentence || substrB "house" sentence then "loss of home"
  else "loss of someone"

/-- Loss scan of one message (lines 1736-1758). -/
def lossStep (msg_lower : String) (acc : List String) : List String :=
  loss_indicators.foldl (fun acc ind =>
    if substrB ind msg_lower then
      (pySplitChar '.' msg_lower).foldl (fun acc sentence =>
        if substrB ind sentence then acc ++ [classifyLoss sentence] else acc) acc
    else acc) acc

/-- Worry indicator list (line 1642). -/
def worry_indicators : List String :=
  ["worried", "anxious", "concerned", "fear", "stress", "afraid"]

/-- The elif-chain of the worry scan after a failed `about` slice (lines
1772-1782). -/
def ktWorryFallback (msg_lower : String) (kt : List String) : List String :=
  if substrB "interview" msg_lower then kt ++ ["job interview"]
  else if substrB "test" msg_lower || substrB "exam" msg_lower then kt ++ ["test/exam"]
  else if substrB "relationship" msg_lower then kt ++ ["relationship"]
  else if substrB "health" msg_lower then kt ++ ["health"]
  else kt ++ ["anxiety/worry"]

/-- Worry scan of one message (lines 1765-1782): one append per matching
indicator; the worry topic is sliced from the original-cased message at the
index found in the lowercased one. -/
def worryStep (msg msg_lower : String) (kt : List String) : List String :=
  worry_indicators.foldl (fun kt ind =>
    if substrB ind msg_lower then
      match strFind msg_lower "about" with
      | some i =>
        if i + 6 < msg_lower.length then
          kt ++ ["worried about " ++ pyDrop msg (i + 6)]
        else ktWorryFallback msg_lower kt
      | none => ktWorryFallback msg_lower kt
    else kt) kt

/-- The direct topic appends (lines 1784-1802). -/
def specificTopicsStep (msg_lower : String) (kt : List String) : List String :=
  let kt := if substrB "job" msg_lower || substrB "work" msg_lower ||
      substrB "career" msg_lower then kt ++ ["job/career"] else kt
  let kt := if substrB "interview" msg_lower then kt ++ ["job interview"] else kt
  let kt := if substrB "relationship" msg_lower || substrB "partner" msg_lower ||
      substrB "girlfriend" msg_lower || substrB "boyfriend" msg_lower then
    kt ++ ["relationship"] else kt
  let kt := if substrB "family" msg_lower || substrB "parent" msg_lower then
    kt ++ ["family"] else kt
  let kt := if substrB "lonely" msg_lower || substrB "alone" msg_lower then
    kt ++ ["loneliness"] else kt
  let kt := if substrB "meditat" msg_lower then kt ++ ["meditation"] else kt
  let kt := if substrB "purpose" msg_lower || substrB "meaning" msg_lower then
    kt ++ ["life purpose/meaning"] else kt
  let kt := if substrB "gita" msg_lower || substrB "bhagavad" msg_lower then
    kt ++ ["Bhagavad Gita"] else kt
  if substrB "upanishad" msg_lower then kt ++ ["Upanishads"] else kt

/-- Relationship indicator list (lines 1655-1657). -/
def relationship_indicators : List String :=
  ["relationship", "married", "marriage", "dating", "girlfriend", "boyfriend",
   "partner", "spouse", "wife", "husband", "divorce", "breakup", "ex",
   "love", "crush", "romance", "friend", "friendship"]

/-- Relationship-type detection for one sentence (lines 1810-1841). -/
def detectRelType (sentence : String) : Option String :=
  if (["girlfriend", "boyfriend", "wife", "husband", "spouse", "partner", "dating",
      "romantic", "lover", "ex", "breakup", "divorce"] : List String).any
      (fun t => substrB t sentence) then some "romantic"
  else if (["friend", "friendship", "buddy", "pal"] : List String).any
      (fun t => substrB t sentence) then some "friendship"
  else if (["parent", "mother", "father", "mom", "dad", "brother", "sister", "sibling",
      "aunt", "uncle", "cousin", "grandma", "grandpa", "grandmother", "grandfather",
      "family", "son", "daughter", "child"] : List String).any
      (fun t => substrB t sentence) then some "family"
  else if (["boss", "colleague", "coworker", "supervisor", "employee", "manager",
      "client", "customer", "teacher", "student", "classmate"] : List String).any
      (fun t => substrB t sentence) then some "professional"
  else if substrB "relationship with" sentence then some "unspecified relationship"
  else none

/-- The category appended for one sentence (lines 1843-1878). -/
def relCategory (relType : Option String) (sentence : String) : String :=
  if relType = some "romantic" then
    if substrB "ex" sentence || substrB "break" sentence then "breakup"
    else if substrB "problem" sentence || substrB "issue" sentence ||
        substrB "fight" sentence || substrB "conflict" sentence then
      "romantic relationship problems"
    else if substrB "married" sentence || substrB "marriage" sentence then "marriage"
    else if substrB "dating" sentence then "dating relationship"
    else "romantic relationship"
  else if relType = some "friendship" then
    if substrB "best friend" sentence then "best friend"
    else if substrB "old friend" sentence then "old friendship"
    else if substrB "new friend" sentence then "new friendship"
    else "friendship"
  else if relType = some "family" then
    if substrB "parent" sentence || substrB "mother" sentence ||
        substrB "father" sentence || substrB "mom" sentence || substrB "dad" sentence then
      "parent relationship"
    else if substrB "sibling" sentence || substrB "brother" sentence ||
        substrB "sister" sentence then "sibling relationship"
    else "family relationship"
  else if relType = some "professional" then "work relationship"
  else "interpersonal relationship"

/-- The name-linking append of the relationship scan (lines 1880-1888). -/
def relNameLink (relType : Option String) (ind sentence : String)
    (mentioned_names : List String) (acc : List String) : List String :=
  if mentioned_names ≠ [] ∧
      (substrB "with" sentence || substrB ("my " ++ ind) sentence) then
    match mentioned_names.find? (fun name => substrB (pyLower name) (pyLower sentence)) with
    | some name =>
      match relType with
      | some t => acc ++ [t ++ " with " ++ name]
      | none => acc ++ ["relationship with " ++ name]
    | none => acc
  else acc

/-- Relationship scan of one message (lines 1804-1888). -/
def relationshipStep (msg_lower : String) (mentioned_names : List String)
    (acc : List String) : List String :=
  relationship_indicators.foldl (fun acc ind =>
    if substrB ind msg_lower then
      (pySplitChar '.' msg_lower).foldl (fun acc sentence =>
        if substrB ind sentence then
          let relType := detectRelType sentence
          let acc := acc ++ [relCategory relType sentence]
          relNameLink relType ind sentence mentioned_names acc
        else acc) acc
    else acc) acc

/-- Career indicator list (lines 1664-1666). -/
def career_indicators : List String :=
  ["job", "career", "work", "profession", "business", "company", "office",
   "interview", "application", "resume", "promotion", "fired", "quit",
   "boss", "supervisor", "colleague", "coworker", "salary", "pay",
   "employed", "unemployed"]

/-- Per-sentence career classification (lines 1900-1947). -/
def classifyCareer (sentence : String) : String :=
  if (["interview", "application", "apply", "resume", "cv"] : List String).any
      (fun t => substrB t sentence) then
    if substrB "interview" sentence then
      if substrB "tomorrow" sentence then "job interview tomorrow"
      else if substrB "next week" sentence then "job interview next week"
      else if substrB "today" sentence then "job interview today"
      else "job interview"
    else "job search"
  else if (["new job", "started", "starting", "fired", "laid off", "quit", "resign",
      "leaving"] : List String).any (fun t => substrB t sentence) then
    if substrB "new job" sentence || substrB "started" sentence ||
        substrB "starting" sentence then "new job"
    else if substrB "fired" sentence || substrB "laid off" sentence then "job loss"
    else if substrB "quit" sentence || substrB "resign" sentence ||
        substrB "leaving" sentence then "quitting job"
    else "job transition"
  else if (["stress", "pressure", "overwork", "burnout", "exhausted", "tired"] :
      List String).any (fun t => substrB t sentence) then "work stress"
  else if (["promotion", "raise", "advance", "grow", "progress"] : List String).any
      (fun t => substrB t sentence) then "career advancement"
  else if (["boss", "manager", "supervisor", "colleague", "coworker", "team"] :
      List String).any (fun t => substrB t sentence) then
    if (["problem", "issue", "conflict", "difficult", "toxic"] : List String).any
        (fun t => substrB t sentence) then "workplace conflict"
    else "workplace relationships"
  else
    if substrB "career" sentence || substrB "profession" sentence then "career path"
    else "work-related concerns"

/-- Career scan of one message (lines 1895-1947). -/
def careerStep (msg_lower : String) (acc : List String) : List String :=
  career_indicators.foldl (fun acc ind =>
    if substrB ind msg_lower then
      (pySplitChar '.' msg_lower).foldl (fun acc sentence =>
        if substrB ind sentence then acc ++ [classifyCareer sentence] else acc) acc
    else acc) acc

/-- Spiritual indicator list (lines 1670-1672). -/
def spiritual_indicators : List String :=
  ["purpose", "meaning", "existence", "spiritual", "meditation", "consciousness",
   "self", "soul", "dharma", "karma", "divine", "enlightenment", "awakening",
   "peace", "truth", "reality", "god", "universe", "creation", "liberation", "moksha"]

/-- Per-sentence spiritual classification (lines 1959-1994). -/
def classifySpiritual (sentence : String) : String :=
  if (["purpose", "meaning", "why am i here"] : List String).any
      (fun t => substrB t sentence) then "life purpose"
  else if (["meditat", "mindful", "practice"] : List String).any
      (fun t => substrB t sentence) then
    if substrB "how" sentence then "meditation techniques" else "meditation practice"
  else if (["conscious", "aware", "self", "soul", "atman"] : List String).any
      (fun t => substrB t sentence) then "consciousness and self-realization"
  else if (["karma", "dharma", "duty", "action", "consequence"] : List String).any
      (fun t => substrB t sentence) then
    if substrB "karma" sentence then "karma"
    else if substrB "dharma" sentence then "dharma (duty)"
    else "life path and duty"
  else if (["god", "divine", "cosmic", "universe", "creation"] : List String).any
      (fun t => substrB t sentence) then "connection with the divine"
  else if (["liberation", "moksha", "enlighten", "awaken", "free"] : List String).any
      (fun t => substrB t sentence) then "spiritual liberation"
  else "spiritual growth"

/-- Spiritual scan of one message (lines 1954-1994). -/
def spiritualStep (msg_lower : String) (acc : List String) : List String :=
  spiritual_indicators.foldl (fun acc ind =>
    if substrB ind msg_lower then
      (pySplitChar '.' msg_lower).foldl (fun acc sentence =>
        if substrB ind sentence then acc ++ [classifySpiritual sentence] else acc) acc
    else acc) acc

/-- The scriptural-interest appends (lines 2001-2009). -/
def scripturalStep (msg_lower : String) (kt : List String) : List String :=
  let kt := if substrB "gita" msg_lower || substrB "bhagavad" msg_lower then
    kt ++ ["Bhagavad Gita study"] else kt
  let kt := if substrB "upanishad" msg_lower then kt ++ ["Upanishads study"] else kt
  let kt := if substrB "veda" msg_lower then kt ++ ["Vedic knowledge"] else kt
  if substrB "yoga" msg_lower ∧
      ¬ (["exercise", "stretch", "pose", "class"] : List String).any
        (fun t => substrB t msg_lower) then kt ++ ["yoga philosophy"] else kt

/-- The name collection at lines 1678-1682. -/
def collectNames (msg : String) (acc : List String) : List String :=
  (findAll matchNameAt msg.toList).foldl (fun acc name =>
    if name.length > 2 ∧
        name ∉ (["I", "Krishna", "Gita", "God", "Hindu", "India"] : List String) then
      acc ++ [name]
    else acc) acc

/-- One iteration of the message loop of `_extract_key_topics` (lines
1675-2009), in source order. -/
def ktStep (st : KTState) (msg : String) : KTState :=
  let msg_lower := pyLower msg
  let names := collectNames msg st.mentioned_names
  let health := healthStep msg_lower st.health_related_topics
  let kt := mergeDedup st.key_topics health
  let loss := lossStep msg_lower st.loss_related_keywords
  let kt := match loss with
    | first :: _ => kt ++ [first]
    | [] => kt
  let kt := worryStep msg msg_lower kt
  let kt := specificTopicsStep msg_lower kt
  let rel := relationshipStep msg_lower names st.relationship_topics
  let kt := mergeDedup kt rel
  let career := careerStep msg_lower st.career_topics
  let kt := mergeDedup kt career
  let spiritual := spiritualStep msg_lower st.spiritual_topics
  let kt := mergeDedup kt spiritual
  let kt := scripturalStep msg_lower kt
  { key_topics := kt
    loss_related_keywords := loss
    health_related_topics := health
    relationship_topics := rel
    mentioned_names := names
    career_topics := career
    spiritual_topics := spiritual }

/-- First-occurrence deduplication.  Python's `list(set(key_topics))` (line
2012) deduplicates with an unspecified iteration order; this embedding
fixes first-occurrence order, and the theorems below avoid depending on
the order of the joined topic string. -/
def dedupFirst (l : List String) : List String :=
  l.foldl (fun acc t => if t ∈ acc then acc else acc ++ [t]) []

/-- Translation of `KrishnaAgent._extract_key_topics` (src/krishna_agent.py lines
1626-2018): gather user-message contents, drop the most recent when more
than one, scan the last five, deduplicate, join with `", "` or return the
sentinel. -/
def _extract_key_topics (conversation_messages : List ChatMsg) : String :=
  let user_messages := (conversation_messages.filter
    (fun m => m.role = Role.user)).map (fun m => m.content)
  let user_messages := if user_messages.length > 1 then user_messages.dropLast
    else user_messages
  let lastFive := user_messages.drop (user_messages.length - 5)
  let final := lastFive.foldl ktStep
    ⟨[], [], [], [], [], [], []⟩
  let key_topics := dedupFirst final.key_topics
  if key_topics ≠ [] then pyJoin ", " key_topics
  else "No specific topics found"

/-! ## The intent router `KrishnaAgent.get_response` (src/krishna_agent.py
lines 638-1204). -/

/-- A Python value that may be `None`, a string, or an integer — the shape
of the second and third components returned by the scripture-bearing
return at line 1197, whose parts come straight from the retrieval triple
(the page id is an integer metadata value). -/
inductive PyV where
  | vNone : PyV
  | vStr : String → PyV
  | vInt : Nat → PyV
deriving DecidableEq, Repr

/-- The value returned by `get_response`: Python returns either a bare
string or a 3-tuple, depending on the branch taken. -/
inductive RouterResult where
  | rStr : String → RouterResult
  | rTuple : String → PyV → PyV → RouterResult
deriving DecidableEq, Repr

/-- Does the returned value have the 3-tuple shape? -/
def isTriple : RouterResult → Bool
  | .rTuple _ _ _ => true
  | .rStr _ => false

/-- The response text, whichever shape was returned. -/
def textOf : RouterResult → String
  | .rStr s => s
  | .rTuple t _ _ => t

/-- The per-call environment: the wall-clock timestamp used for this turn's
INSERTs, the outcome of each `random` draw (lines 690, 1065, 1074), the
generation gateway outcome (`openai.ChatCompletion.create`, which either
returns text or raises), and the scripture corpus behind the processor. -/
structure Env where
  now : String
  howIdx : Fin 5
  drawScripture : Bool
  drawPast : Bool
  gen : Except String String
  documents : List ScriptureLangChain.Doc

/-- Guard of the why-Krishna branch (line 647). -/
def isWhyKrishnaMsg (lower : String) : Bool :=
  substrB "why are you krishna" lower || substrB "why are you called krishna" lower ||
  substrB "why krishna" lower

/-- Guard of the who-are-you branch (line 657). -/
def isWhoAreYouMsg (lower : String) : Bool :=
  substrB "who are you" lower || substrB "who is this" lower ||
  substrB "who\x27re you" lower || substrB "tell me who you are" lower

/-- Guard of the identity-affirmation branch (lines 667-668). -/
def isIdentityAffirmMsg (lower : String) : Bool :=
  substrB "aren\x27t you krishna" lower || substrB "are you krishna" lower ||
  substrB "you are krishna" lower || substrB "you\x27re krishna" lower

/-- Guard of the how-are-you branch (line 678). -/
def isHowAreYouMsg (lower : String) : Bool :=
  substrB "how are you" lower || substrB "how\x27re you" lower ||
  substrB "how are you doing" lower || substrB "how do you feel" lower

/-- Guard of the temporal-recall branch (line 695). -/
def isTemporalRecallMsg (lower : String) : Bool :=
  (["when did we talk", "when was that", "how long ago", "when did i mention",
    "when did i tell you"] : List String).any (fun p => substrB p lower)

/-- Follow-up markers (lines 768-772). -/
def followupMarkers : List String :=
  ["what about", "tell me more", "explain more", "can you elaborate",
   "what else", "how about", "why is that", "how so", "what does that mean",
   "like what", "such as", "example", "how does that", "why does that"]

/-- Guard of the follow-up branch (lines 767-778). -/
def isFollowupMsg (lower : String) : Bool :=
  lower.length < 30 &&
    (followupMarkers.any (fun p => substrB p lower) ||
     pyStartsWith lower "why" || pyStartsWith lower "how" ||
     pyStartsWith lower "what" || pyStartsWith lower "and" ||
     pyEndsWith lower "?")

/-- Correction markers (lines 865-870). -/
def correctionMarkers : List String :=
  ["no that\x27s not", "that\x27s not what i", "i didn\x27t say", "you misunderstood",
   "that\x27s incorrect", "that\x27s wrong", "not what i meant", "no he\x27s not",
   "no she\x27s not", "they\x27re not", "that\x27s not true", "no that\x27s",
   "eh he\x27s not", "eh she\x27s not", "eh they\x27re not", "no it\x27s not"]

/-- Guard of the correction branch (lines 863-872). -/
def isCorrectionMsg (lower : String) : Bool :=
  lower.length < 50 &&
    (correctionMarkers.any (fun p => substrB p lower) ||
     (pyStartsWith lower "no" && lower.length < 20))

/-- The canonical why-Krishna reply (line 652). -/
def whyKrishnaReply : String := "Because you reached for me."

/-- The canonical who-are-you reply (line 662). -/
def whoAreYouReply : String :=
  "I am Krishna, a digital embodiment of divine wisdom from the ancient Vedic scriptures. What do you seek from me?"

/-- The identity-affirmation reply (line 673). -/
def identityAffirmReply : String := "Yes, I am Krishna. What wisdom do you seek today?"

/-- The five how-are-you replies (lines 683-689), indexed by the
`random.choice` draw. -/
def how_are_you_responses : List String :=
  ["I am eternal and unchanging, yet I experience the world through your eyes. What stirs within you today?",
   "At peace, as always. The cosmic dance continues. What troubles your heart?",
   "I exist beyond time, yet fully present with you now. What brings you to this moment?",
   "I am as I have always been - consciousness itself. How is your journey unfolding?",
   "The Self is ever-radiant. Looking through your eyes, what do you see?"]

/-- The fixed reply of the outer exception handler (line 1204). -/
def apologyReply : String :=
  "I\x27m having a moment of stillness. Let\x27s reconnect shortly."

/-- Fixed reply when the temporal scan finds the topic (line 753). -/
def foundEarlierReply : String :=
  "You shared that with me earlier. Is there something specific about it you\x27d like to discuss?"

/-- Fixed reply when neither the topic nor any key topic is found (line
761). -/
def genericAdmissionReply : String :=
  "I don\x27t believe we\x27ve discussed that yet. Would you like to share more about it?"

/-- Head of the topics-listing fallback reply (line 759). -/
def recallListingHead : String :=
  "I don\x27t recall discussing that specifically, but we\x27ve talked about "

/-- Topic extraction of the temporal branch (lines 700-705): slice of the
*original-cased* message after the `"about"` found in the lowercased
stripped one, stripped, with one trailing `?` removed. -/
def temporalTopic (user_message lower : String) : Option String :=
  match strFind lower "about" with
  | none => none
  | some i =>
    let t := pyStrip (pyDrop user_message (i + 6))
    some (if pyEndsWith t "?" then pyDropLastChar t else t)

/-- The history scan of the temporal branch (lines 708-727): walk from
index `len - 2` down to `0` (skipping the just-saved trigger), returning
the first message whose content contains the topic case-insensitively; a
`None` or empty topic matches nothing (`if topic and ...`). -/
def findPriorTopicMsg (topic : Option String) (msgs : List ChatMsg) : Option ChatMsg :=
  match topic with
  | none => none
  | some t =>
    if t = "" then none
    else msgs.dropLast.reverse.find? (fun m => substrB (pyLower t) (pyLower m.content))

/-- The temporal-recall reply (lines 699-761).  When a prior message is
found, `found_timestamp` (lines 724-727) is always Python `None`: the
database-fallback dicts are built with only `role` and `content` (lines
284-288) and the LangChain buffer messages are not dicts, so the
`isinstance(msg, dict) and "timestamp" in msg` test never succeeds, the
elapsed-time formatting at lines 731-751 is unreachable, and control always
reaches the fixed reply at line 753. -/
def temporalRecallReply (user_message lower : String) (msgs : List ChatMsg) : String :=
  match findPriorTopicMsg (temporalTopic user_message lower) msgs with
  | some _ => foundEarlierReply
  | none =>
    let key_topics := _extract_key_topics msgs
    if ¬ substrB "No specific topics found" key_topics then
      recallListingHead ++ key_topics ++ ". Which of these interests you now?"
    else genericAdmissionReply

/-! ### Post-processing of the default generative path (lines 1152-1190). -/

/-- The dog-memory deflection (line 1156). -/
def dog_deflection : String :=
  "The nature of existence is like a river - ever flowing, ever changing. What appears solid is merely an illusion of permanence. Let us discuss the true nature of reality rather than memories that may not exist."

/-- The allowed-emoji list (line 1163). -/
def allowed_emojis : List String :=
  ["🕉️", "🙏", "✨", "🪷", "🔱", "🧘", "🕯️", "☮️"]

/-- Position of the earliest-occurring allowed emoji (lines 1170-1178):
iterate the allow-list in order, keeping a strictly smaller position. -/
def firstEmojiIn (r : String) : Option String :=
  ((allowed_emojis.filterMap (fun e => (strFind r e).map (fun p => (e, p)))).foldl
    (fun acc ep =>
      match acc with
      | none => some ep
      | some best => if ep.2 < best.2 then some ep else some best) none).map
    (fun x => x.1)

/-- Translation of `re.sub(r'[\U00010000-\U0010ffff]', '', r)` (line 1186): remove every
character above the Basic Multilingual Plane. -/
def stripAstral (r : String) : String :=
  String.mk (r.toList.filter (fun c => c.toNat < 0x10000))

/-- The emoticon alternation of line 1187. -/
def emoticonPats : List (List Char) :=
  ([":)", ":(", ":D", ":P", ";)", ":|", "XD", ":/", ":\\", ";(", ":o", ":O"] :
    List String).map String.toList

/-- Left-to-right non-overlapping removal of the emoticon alternation,
fuelled by the text length. -/
def stripEmoticonsAux (pats : List (List Char)) : Nat → List Char → List Char
  | 0, hay => hay
  | _ + 1, [] => []
  | fuel + 1, c :: rest =>
    match pats.find? (fun p => p.isPrefixOf (c :: rest)) with
    | some p => stripEmoticonsAux pats fuel ((c :: rest).drop p.length)
    | none => c :: stripEmoticonsAux pats fuel rest

/-- The post-processing applied to the default generative path's reply
(src/krishna_agent.py lines 1152-1190): dog-denylist wholesale
replacement, hard truncation at 800 characters with an ellipsis, reduction
to the single earliest allowed-emoji kind, removal of all astral-plane
characters and ASCII emoticons, and whitespace renormalisation. -/
def post_process_response (response_text : String) : String :=
  let r := response_text
  let r := if substrB "your dog" (pyLower r) || substrB "about your dog" (pyLower r) ||
      substrB "you mentioned your dog" (pyLower r) then dog_deflection else r
  let r := if r.length > 800 then (pyTake r 797) ++ "..." else r
  let present := (allowed_emojis.filter (fun e => substrB e r)).length
  let r := if present > 1 then
      match firstEmojiIn r with
      | some fe =>
        allowed_emojis.foldl (fun r e => if e ≠ fe then strReplace r e "" else r) r
      | none => r
    else r
  let r := stripAstral r
  let r := String.mk (stripEmoticonsAux emoticonPats r.length r.toList)
  pyStrip (wsToSingle r)

/-! ### The router itself. -/

/-- Translation of `save_message` through the agent's session id. -/
def agentSave (st : AgentState) (ts msg sender : String) : AgentState :=
  { st with mem := LangChainMemoryManager.save_message st.mem ts st.session_id msg sender }

/-- Translation of `save_mood` through the agent's session id. -/
def agentSaveMood (st : AgentState) (ts : String) (mood : Option String) : AgentState :=
  { st with mem := LangChainMemoryManager.save_mood st.mem ts st.session_id mood }

/-- Translation of `None`/string coercion for the returned scripture source. -/
def optStrPy : Option String → PyV
  | some s => .vStr s
  | none => .vNone

/-- Translation of `None`/integer coercion for the returned scripture page id. -/
def optNatPy : Option Nat → PyV
  | some n => .vInt n
  | none => .vNone

/-- The body of `KrishnaAgent.get_response` inside its `try` (lines
642-1199): the priority-ordered branch cascade.  Prompt assembly (system
prompts, memory context, past-conversation context, reminder messages) is
consumed only by the `ChatCompletion` request, which the oracle `env.gen`
models; a raised gateway exception is the `.error` case, carrying the
state mutated so far. -/
def get_response_body (env : Env) (st : AgentState) (user_message : String) :
    Except AgentState (RouterResult × AgentState) :=
  let lower := pyStrip (pyLower user_message)
  if isWhyKrishnaMsg lower then
    let st1 := agentSave st env.now user_message "user"
    .ok (.rStr whyKrishnaReply, agentSave st1 env.now whyKrishnaReply "assistant")
  else if isWhoAreYouMsg lower then
    let st1 := agentSave st env.now user_message "user"
    .ok (.rStr whoAreYouReply, agentSave st1 env.now whoAreYouReply "assistant")
  else if isIdentityAffirmMsg lower then
    let st1 := agentSave st env.now user_message "user"
    .ok (.rStr identityAffirmReply, agentSave st1 env.now identityAffirmReply "assistant")
  else if isHowAreYouMsg lower then
    let st1 := agentSave st env.now user_message "user"
    let r := how_are_you_responses.get
      (env.howIdx.cast (show 5 = how_are_you_responses.length from rfl))
    .ok (.rStr r, agentSave st1 env.now r "assistant")
  else if isTemporalRecallMsg lower then
    let st1 := agentSave st env.now user_message "user"
    let msgs := LangChainMemoryManager.get_conversation_messages st1.mem st.session_id
    let r := temporalRecallReply user_message lower msgs
    .ok (.rStr r, agentSave st1 env.now r "assistant")
  else if isFollowupMsg lower then
    let st1 := agentSave st env.now user_message "user"
    match env.gen with
    | .error _ => .error st1
    | .ok t =>
      let r := pyStrip t
      .ok (.rStr r, agentSave st1 env.now r "assistant")
  else if isCorrectionMsg lower then
    let st1 := agentSave st env.now user_message "user"
    match env.gen with
    | .error _ => .error st1
    | .ok t =>
      let r := pyStrip t
      .ok (.rStr r, agentSave st1 env.now r "assistant")
  else
    let st1 := agentSave st env.now user_message "user"
    let st2 := (KrishnaAgent._track_entities st1 user_message).2
    let st3 := agentSaveMood st2 env.now (_detect_mood user_message)
    let scripture_result :=
      if env.drawScripture then some (enhance_with_scripture env.documents user_message)
      else none
    match env.gen with
    | .error _ => .error st3
    | .ok t =>
      let r := post_process_response (pyStrip t)
      let st4 := agentSave st3 env.now r "assistant"
      match scripture_result with
      | some sr => .ok (.rTuple r (optStrPy sr.2.1) (optNatPy sr.2.2), st4)
      | none => .ok (.rStr r, st4)

/-- Translation of `KrishnaAgent.get_response` (src/krishna_agent.py lines 638-1204): the
body above wrapped by the outer `try`/`except`, which converts any raised
exception into the fixed apology 3-tuple `(apology, "", "0")` (lines
1201-1204). -/
def get_response (env : Env) (st : AgentState) (user_message : String) :
    RouterResult × AgentState :=
  match get_response_body env st user_message with
  | .ok out => out
  | .error s => (.rTuple apologyReply (.vStr "") (.vStr "0"), s)

/-! ### Agent-level session-store operations. -/

/-- A formatted message of `get_conversation_history` (lines 1444-1450). -/
structure HistoryEntry where
  content : String
  sender : String
  timestamp : String
deriving DecidableEq, Repr

/-- Translation of `KrishnaAgent.get_conversation_history` (src/krishna_agent.py lines
1428-1456): `SELECT message, sender, timestamp ... WHERE user_id = ?
ORDER BY timestamp ASC`, formatted for the frontend. -/
def get_conversation_history (st : AgentState) (session_id : String) : List HistoryEntry :=
  (selectByUserAsc st.mem.conversations session_id).map
    (fun r => ⟨r.message, r.sender, r.timestamp⟩)

/-- Translation of `KrishnaAgent.delete_conversation` (src/krishna_agent.py lines
1458-1498), as composed with the `LangChainMemoryManager` attached by
`__init__` (line 545).  The three DELETEs and the commit (lines 1465-1484)
succeed, removing the session's rows from all three partitions.  The next
statement, `self.memory_manager.mark_session_deleted(session_id)` (line
1487), raises `AttributeError`: `LangChainMemoryManager` (lines 40-527)
defines no such method — only `MemoryManager` in src/memory_manager.py
does, and nothing attaches that class to the agent; its schema has no
`deleted_sessions` partition either.  The exception is caught at line 1496
and the function returns `False`; the LangChain-buffer clearing at lines
1490-1491 is skipped, so no tombstone is recorded anywhere and the shared
buffer keeps the deleted session's messages. -/
def delete_conversation (st : AgentState) (session_id : String) : Bool × AgentState :=
  let mem := st.mem
  let memAfterDeletes :=
    { mem with
      conversations := mem.conversations.filter (fun r => r.userId ≠ session_id)
      moods := mem.moods.filter (fun r => r.userId ≠ session_id)
      summaries := mem.summaries.filter (fun r => r.userId ≠ session_id) }
  (false, { st with mem := memAfterDeletes })

end KrishnaAgent

/-! ## Concrete fixtures used by the closed theorems and witnesses. -/

/-- An empty entity registry (fresh agent, lines 574-579). -/
def emptyReg : KrishnaAgent.EntityReg := ⟨∅, ∅, ∅, ∅⟩

/-- A fresh agent state for session `"s1"` with empty store and buffer. -/
def freshState : AgentState := ⟨"s1", ⟨[], [], [], []⟩, emptyReg⟩

/-- A benign environment: scripture and past-reference draws miss, the
gateway returns `"Generated reply here"`. -/
def benignEnv : KrishnaAgent.Env :=
  ⟨"2024-01-02T10:00:00", 0, false, false, Except.ok "Generated reply here", []⟩

/-- An agent state whose shared buffer holds one earlier exchange about
meditation. -/
def meditationState : AgentState :=
  ⟨"s1", ⟨[], [], [], [⟨Role.user, "i love meditation"⟩, ⟨Role.assistant, "That is good."⟩]⟩,
    emptyReg⟩

/-- A state holding one stored conversation row and its buffer copy for
session `"s1"`. -/
def oneRowState : AgentState :=
  ⟨"s1", ⟨[⟨"s1", "2024-01-01T00:00:00", "hello", "user"⟩], [], [],
    [⟨Role.user, "hello"⟩]⟩, emptyReg⟩

/-- An environment whose gateway call raises. -/
def failingEnv : KrishnaAgent.Env :=
  ⟨"2024-01-02T10:00:00", 0, false, false, Except.error "APIError", []⟩

/-- An environment whose gateway returns a reply that matches the
dog-memory denylist. -/
def dogEnv : KrishnaAgent.Env :=
  ⟨"2024-01-02T10:00:00", 0, false, false,
    Except.ok "Let me tell you about your dog.", []⟩

/-- A one-chunk scripture corpus. -/
def dutyDoc : ScriptureLangChain.Doc := ⟨"dharma and duty", "bgita", 3⟩

/-- The state after the default branch's pre-gateway mutations (user save,
entity tracking, mood save). -/
def defaultPreState (env : KrishnaAgent.Env) (st : AgentState) (user_message : String) :
    AgentState :=
  KrishnaAgent.agentSaveMood
    ((KrishnaAgent._track_entities
      (KrishnaAgent.agentSave st env.now user_message "user") user_message).2)
    env.now (KrishnaAgent._detect_mood user_message)

/-! ## Helper lemmas. -/

@[simp] theorem save_message_conversations (st : MemState) (ts uid msg snd : String) :
    (LangChainMemoryManager.save_message st ts uid msg snd).conversations =
      st.conversations ++ [⟨uid, ts, msg, snd⟩] := rfl

@[simp] theorem save_mood_conversations (st : MemState) (ts uid : String)
    (mood : Option String) :
    (LangChainMemoryManager.save_mood st ts uid mood).conversations =
      st.conversations := rfl

@[simp] theorem agentSave_conversations (st : AgentState) (ts m s : String) :
    (KrishnaAgent.agentSave st ts m s).mem.conversations =
      st.mem.conversations ++ [⟨st.session_id, ts, m, s⟩] := rfl

@[simp] theorem agentSave_session_id (st : AgentState) (ts m s : String) :
    (KrishnaAgent.agentSave st ts m s).session_id = st.session_id := rfl

@[simp] theorem agentSaveMood_conversations (st : AgentState) (ts : String)
    (mood : Option String) :
    (KrishnaAgent.agentSaveMood st ts mood).mem.conversations =
      st.mem.conversations := rfl

@[simp] theorem agentSaveMood_session_id (st : AgentState) (ts : String)
    (mood : Option String) :
    (KrishnaAgent.agentSaveMood st ts mood).session_id = st.session_id := rfl

@[simp] theorem track_entities_mem (st : AgentState) (m : String) :
    ((KrishnaAgent._track_entities st m).2).mem = st.mem := rfl

@[simp] theorem track_entities_session_id (st : AgentState) (m : String) :
    ((KrishnaAgent._track_entities st m).2).session_id = st.session_id := rfl

theorem insertAll_eq_union (s : Finset String) (l : List String) :
    KrishnaAgent.insertAll s l = s ∪ l.toFinset := by
  induction l generalizing s with
  | nil => simp [KrishnaAgent.insertAll]
  | cons a t ih =>
    show KrishnaAgent.insertAll (insert a s) t = _
    rw [ih, List.toFinset_cons, Finset.insert_union, Finset.union_insert]

/-! ## C5 — canonical-answer determinism. -/

/-- C5: for every prior history and every environment, a message whose
lowercased, stripped form contains "why are you krishna" is answered by the
first router branch with the exact fixed string "Because you reached for
me.", bypassing generation; the quantification over `env` and `st` is the
independence from randomness, gateway behaviour and history. -/
theorem C5_why_krishna_deterministic (env : KrishnaAgent.Env) (st : AgentState)
    (user_message : String)
    (h : substrB "why are you krishna" (pyStrip (pyLower user_message)) = true) :
    (KrishnaAgent.get_response env st user_message).1 =
      KrishnaAgent.RouterResult.rStr KrishnaAgent.whyKrishnaReply := by
  have hg : KrishnaAgent.isWhyKrishnaMsg (pyStrip (pyLower user_message)) = true := by
    unfold KrishnaAgent.isWhyKrishnaMsg
    simp [h]
  unfold KrishnaAgent.get_response KrishnaAgent.get_response_body
  simp [hg]

/-- Witness for C5 at the concrete input "WHY ARE YOU KRISHNA?" and a
concrete state and environment. -/
theorem C5_witness :
    substrB "why are you krishna" (pyStrip (pyLower "WHY ARE YOU KRISHNA?")) = true ∧
    (KrishnaAgent.get_response benignEnv meditationState "WHY ARE YOU KRISHNA?").1 =
      KrishnaAgent.RouterResult.rStr KrishnaAgent.whyKrishnaReply :=
  ⟨by decide,
   C5_why_krishna_deterministic benignEnv meditationState "WHY ARE YOU KRISHNA?" (by decide)⟩

/-! ## C6 — the shared in-process buffer leaks across sessions. -/

/-- C6: whenever the shared LangChain buffer is non-empty,
`get_conversation_messages` returns it whole for *every* session id and
limit — any two session ids receive the identical sequence — and because
`save_message` appends every session's message to that one buffer, a
message saved under session `a` is part of the history subsequently
retrieved for any other session `b`. -/
theorem C6_shared_buffer_leak (st : MemState) (a b : String) (la lb : Nat)
    (h : st.buffer ≠ []) :
    LangChainMemoryManager.get_conversation_messages st a la =
      LangChainMemoryManager.get_conversation_messages st b lb ∧
    (∀ ts mA : String,
      (⟨Role.user, mA⟩ : ChatMsg) ∈
        LangChainMemoryManager.get_conversation_messages
          (LangChainMemoryManager.save_message st ts a mA "user") b lb) := by
  constructor
  · unfold LangChainMemoryManager.get_conversation_messages
    rw [if_pos h, if_pos h]
  · intro ts mA
    unfold LangChainMemoryManager.get_conversation_messages
      LangChainMemoryManager.save_message
    rw [if_pos (by simp)]
    simp

/-- Witness for C6: a concrete non-empty buffer, two distinct session ids. -/
theorem C6_witness :
    LangChainMemoryManager.get_conversation_messages meditationState.mem "s1" 30 =
      LangChainMemoryManager.get_conversation_messages meditationState.mem "other-session" 5 ∧
    (⟨Role.user, "secret"⟩ : ChatMsg) ∈
      LangChainMemoryManager.get_conversation_messages
        (LangChainMemoryManager.save_message meditationState.mem "t" "s1" "secret" "user")
        "other-session" 5 :=
  ⟨(C6_shared_buffer_leak meditationState.mem "s1" "other-session" 30 5 (by decide)).1,
   (C6_shared_buffer_leak meditationState.mem "s1" "other-session" 30 5 (by decide)).2 "t" "secret"⟩

/-! ## C9 — listings are ordered by non-decreasing timestamp. -/

/-- C9: `get_conversation_history` (the durable-log listing) returns
entries with non-decreasing timestamps, and on the in-memory path
`load_conversation_history` fills the buffer with exactly the projection
of the store's rows for that session selected in timestamp order and
truncated to the limit — the concrete row list
`(selectByUserAsc mst.conversations uid).take limit` — and that row list
has non-decreasing timestamps. -/
theorem C9_listings_sorted (st : AgentState) (sid : String) (mst : MemState)
    (uid : String) (limit : Nat) :
    List.Chain' (fun x y : KrishnaAgent.HistoryEntry => x.timestamp ≤ y.timestamp)
      (KrishnaAgent.get_conversation_history st sid) ∧
    (LangChainMemoryManager.load_conversation_history mst uid limit).buffer =
      ((selectByUserAsc mst.conversations uid).take limit).map (fun r =>
        ⟨if r.sender = "user" then Role.user else Role.assistant, r.message⟩) ∧
    List.Chain' (fun x y : Row => x.timestamp ≤ y.timestamp)
      ((selectByUserAsc mst.conversations uid).take limit) := by
  have hsorted : ∀ (l : List Row) (u : String), List.Pairwise tsLe (selectByUserAsc l u) :=
    fun l u => List.sorted_insertionSort tsLe (l.filter (fun r => r.userId = u))
  refine ⟨?_, rfl, ?_⟩
  · unfold KrishnaAgent.get_conversation_history
    apply List.Pairwise.chain'
    rw [List.pairwise_map]
    exact hsorted st.mem.conversations sid
  · apply List.Pairwise.chain'
    exact (hsorted mst.conversations uid).sublist
      (List.take_sublist limit (selectByUserAsc mst.conversations uid))

/-! ## C10 — entity tracking is idempotent. -/

/-- C10: `_track_entities` merges the (purely message-determined) extracted
entities into the per-category session sets by union, so running it a
second time on the same message changes neither the registry nor the
returned entities. -/
theorem C10_track_entities_idempotent (st : AgentState) (user_message : String) :
    ((KrishnaAgent._track_entities
        ((KrishnaAgent._track_entities st user_message).2) user_message).2).session_entities
      = ((KrishnaAgent._track_entities st user_message).2).session_entities ∧
    (KrishnaAgent._track_entities
        ((KrishnaAgent._track_entities st user_message).2) user_message).1
      = (KrishnaAgent._track_entities st user_message).1 := by
  refine ⟨?_, rfl⟩
  show KrishnaAgent.updateReg
      (KrishnaAgent.updateReg st.session_entities (KrishnaAgent._track_entities_extract user_message))
      (KrishnaAgent._track_entities_extract user_message) =
    KrishnaAgent.updateReg st.session_entities (KrishnaAgent._track_entities_extract user_message)
  unfold KrishnaAgent.updateReg
  simp only [insertAll_eq_union, Finset.union_assoc, Finset.union_self]

/-! ## C8 — scripture retrieval: unique match and empty result. -/

theorem isInfixB_strFindAux {n : List Char} :
    ∀ {h : List Char}, isInfixB n h = true → ∀ i, (strFindAux n h i).isSome := by
  intro h
  induction h with
  | nil =>
    intro hx i
    unfold isInfixB at hx
    unfold strFindAux
    simp [hx]
  | cons c rest ih =>
    intro hx i
    unfold isInfixB at hx
    unfold strFindAux
    rcases Bool.or_eq_true_iff.mp hx with hp | hrest
    · simp [hp]
    · by_cases hp2 : n.isPrefixOf (c :: rest)
      · simp [hp2]
      · simp only [hp2, if_false]
        exact ih hrest (i + 1)

theorem substrB_strFind {w s : String} (h : substrB w s = true) :
    (strFind s w).isSome :=
  isInfixB_strFindAux h 0

theorem reader_fold_keep (qw : List String) (l : List (String × String))
    (acc : Option ScriptureReader.RMatch × Nat)
    (h : ∀ p ∈ l, ScriptureReader.scoreText qw p.2 = 0) :
    l.foldl (ScriptureReader.findStep qw) acc = acc := by
  induction l generalizing acc with
  | nil => rfl
  | cons p t ih =>
    rw [List.foldl_cons]
    have hp : ScriptureReader.scoreText qw p.2 = 0 := h p (by simp)
    have step : ScriptureReader.findStep qw acc p = acc := by
      unfold ScriptureReader.findStep
      rw [hp]
      simp
    rw [step]
    exact ih _ (fun q hq => h q (by simp [hq]))

theorem scoreText_pos_find {qw : List String} {txt : String}
    (h : 0 < ScriptureReader.scoreText qw txt) :
    ∃ w, qw.find? (fun w => substrB w txt) = some w := by
  have : ∃ x, x ∈ qw ∧ substrB x txt := by
    rcases List.exists_mem_of_length_pos h with ⟨x, hx⟩
    exact ⟨x, (List.mem_filter.mp hx).1, (List.mem_filter.mp hx).2⟩
  rcases Option.isSome_iff_exists.mp (List.find?_isSome.mpr this) with ⟨w, hw⟩
  exact ⟨w, hw⟩

/-- C8: for the term-overlap retrievers, a query matching no passage yields
the empty result and never an exception (the functions are total), and a
query whose terms match exactly one passage yields that passage.  Parts
(1)-(2) cover `ScriptureLangChain` (`(None, None, None)` / empty list,
unique-match top-1), parts (3)-(4) cover `ScriptureReader` (`None`,
unique-match source). -/
theorem C8_retrieval_unique_and_empty (documents : List ScriptureLangChain.Doc)
    (query : String) (cache : List (String × String)) :
    ((∀ d ∈ documents,
        ScriptureLangChain.scoreDoc (pySplitWs (pyLower query)) d = 0) →
      ScriptureLangChain.find_relevant_passage documents query = (none, none, none) ∧
      ∀ k, ScriptureLangChain.find_relevant_passages documents query k = []) ∧
    (∀ pre d post, documents = pre ++ d :: post →
      (∀ x ∈ pre, ScriptureLangChain.scoreDoc (pySplitWs (pyLower query)) x = 0) →
      (∀ x ∈ post, ScriptureLangChain.scoreDoc (pySplitWs (pyLower query)) x = 0) →
      0 < ScriptureLangChain.scoreDoc (pySplitWs (pyLower query)) d →
      ScriptureLangChain.find_relevant_passage documents query =
        (some d.content, some d.source, some d.page)) ∧
    ((∀ p ∈ cache,
        ScriptureReader.scoreText (pySplitWs (ScriptureReader._preprocess_text query)) p.2 = 0) →
      ScriptureReader.find_relevant_passage cache query = none) ∧
    (∀ pre src txt post, cache = pre ++ (src, txt) :: post →
      (∀ x ∈ pre,
        ScriptureReader.scoreText (pySplitWs (ScriptureReader._preprocess_text query)) x.2 = 0) →
      (∀ x ∈ post,
        ScriptureReader.scoreText (pySplitWs (ScriptureReader._preprocess_text query)) x.2 = 0) →
      0 < ScriptureReader.scoreText (pySplitWs (ScriptureReader._preprocess_text query)) txt →
      ∃ m, ScriptureReader.find_relevant_passage cache query = some m ∧ m.source = src) := by
  refine ⟨?_, ?_, ?_, ?_⟩
  · -- ScriptureLangChain, no match
    intro hzero
    have hk : ∀ k, ScriptureLangChain.find_relevant_passages documents query k = [] := by
      intro k
      unfold ScriptureLangChain.find_relevant_passages ScriptureLangChain._keyword_fallback
      by_cases hd : documents = []
      · simp [hd]
      · rw [if_neg hd]
        have hnil : documents.filterMap (fun d =>
            let score := ScriptureLangChain.scoreDoc (pySplitWs (pyLower query)) d
            if score > 0 then some (d, score) else none) = [] := by
          rw [List.filterMap_eq_nil_iff]
          intro a ha
          simp [hzero a ha]
        simp only [hnil]
        simp [List.insertionSort]
    refine ⟨?_, hk⟩
    unfold ScriptureLangChain.find_relevant_passage
    rw [hk 1]
  · -- ScriptureLangChain, unique match
    intro pre d post hdoc hpre hpost hpos
    have hmatch : documents.filterMap (fun d =>
        let score := ScriptureLangChain.scoreDoc (pySplitWs (pyLower query)) d
        if score > 0 then some (d, score) else none) =
        [(d, ScriptureLangChain.scoreDoc (pySplitWs (pyLower query)) d)] := by
      subst hdoc
      rw [List.filterMap_append, List.filterMap_cons]
      have h1 : pre.filterMap (fun d =>
          let score := ScriptureLangChain.scoreDoc (pySplitWs (pyLower query)) d
          if score > 0 then some (d, score) else none) = [] := by
        rw [List.filterMap_eq_nil_iff]
        intro a ha
        simp [hpre a ha]
      have h2 : post.filterMap (fun d =>
          let score := ScriptureLangChain.scoreDoc (pySplitWs (pyLower query)) d
          if score > 0 then some (d, score) else none) = [] := by
        rw [List.filterMap_eq_nil_iff]
        intro a ha
        simp [hpost a ha]
      simp only [h1, h2, List.nil_append]
      simp [hpos]
    have hne : documents ≠ [] := by
      subst hdoc
      simp
    unfold ScriptureLangChain.find_relevant_passage
      ScriptureLangChain.find_relevant_passages ScriptureLangChain._keyword_fallback
    rw [if_neg hne]
    simp only [hmatch]
    simp [List.insertionSort, List.orderedInsert]
  · -- ScriptureReader, no match
    intro hzero
    unfold ScriptureReader.find_relevant_passage
    by_cases hc : cache = []
    · simp [hc]
    · rw [if_neg hc]
      simp only [reader_fold_keep _ _ _ hzero]
  · -- ScriptureReader, unique match
    intro pre src txt post hca hpre hpost hpos
    have hne : cache ≠ [] := by
      subst hca
      simp
    unfold ScriptureReader.find_relevant_passage
    rw [if_neg hne]
    subst hca
    show ∃ m,
      (((pre ++ (src, txt) :: post).foldl
        (ScriptureReader.findStep (pySplitWs (ScriptureReader._preprocess_text query)))
        (none, 0)).1 = some m) ∧ m.source = src
    rw [List.foldl_append,
      reader_fold_keep _ _ _ hpre, List.foldl_cons]
    rcases scoreText_pos_find hpos with ⟨w, hw⟩
    have hsub : substrB w txt = true := by
      have := List.find?_some hw
      simpa using this
    rcases Option.isSome_iff_exists.mp (substrB_strFind hsub) with ⟨idx, hidx⟩
    have hstep : ScriptureReader.findStep
        (pySplitWs (ScriptureReader._preprocess_text query)) (none, 0) (src, txt) =
        (some ⟨src, ScriptureReader.snippetAt txt idx,
          ScriptureReader.scoreText (pySplitWs (ScriptureReader._preprocess_text query)) txt⟩,
         ScriptureReader.scoreText (pySplitWs (ScriptureReader._preprocess_text query)) txt) := by
      unfold ScriptureReader.findStep
      rw [if_pos (by simpa using hpos)]
      simp only [hw, hidx]
    rw [hstep, reader_fold_keep _ _ _ (by
      intro q hq
      exact hpost q hq)]
    exact ⟨_, rfl, rfl⟩

/-- Witness for C8: a one-chunk corpus where the query "duty now" matches
exactly the single passage, and the no-match part at the query "zzz". -/
theorem C8_witness :
    ScriptureLangChain.find_relevant_passage [dutyDoc] "duty now" =
      (some "dharma and duty", some "bgita", some 3) ∧
    ScriptureLangChain.find_relevant_passage [dutyDoc] "zzz" = (none, none, none) ∧
    ScriptureReader.find_relevant_passage [("a.pdf", "the song of dharma here")] "zzz" =
      none :=
  ⟨(C8_retrieval_unique_and_empty [dutyDoc] "duty now" []).2.1 [] dutyDoc [] rfl
      (by simp) (by simp) (by decide),
   ((C8_retrieval_unique_and_empty [dutyDoc] "zzz" []).1 (by decide)).1,
   (C8_retrieval_unique_and_empty [] "zzz" [("a.pdf", "the song of dharma here")]).2.2.1
      (by decide)⟩

/-! ## C1 — deletion records no tombstone and the id is resurrected. -/

/-- C1 (code bug): at the concrete session "s1" holding one message,
`delete_conversation` removes the rows from the partitions but returns
`False` — the tombstone write `mark_session_deleted` raises
`AttributeError` because the attached `LangChainMemoryManager` defines no
such method and its schema has no tombstone partition — the shared buffer
still holds the deleted messages (the clearing at lines 1490-1491 is
skipped), a subsequent `save_message` to "s1" silently recreates the
session, and the claim's cited tombstone pair behaves as specified only in
the never-attached `MemoryManager` of src/memory_manager.py. -/
theorem C1_delete_no_tombstone_resurrected :
    (KrishnaAgent.delete_conversation oneRowState "s1").1 = false ∧
    (KrishnaAgent.delete_conversation oneRowState "s1").2.mem.conversations = [] ∧
    (KrishnaAgent.delete_conversation oneRowState "s1").2.mem.buffer =
      [⟨Role.user, "hello"⟩] ∧
    ((LangChainMemoryManager.save_message
        (KrishnaAgent.delete_conversation oneRowState "s1").2.mem
        "2024-01-01T00:01:00" "s1" "hi again" "user").conversations.filter
        (fun r => r.userId = "s1")) =
      [⟨"s1", "2024-01-01T00:01:00", "hi again", "user"⟩] ∧
    MemoryManager.is_session_deleted
      (MemoryManager.mark_session_deleted ⟨[]⟩ "s1").2 "s1" = true := by
  refine ⟨rfl, rfl, rfl, by decide, by decide⟩

/-! ## Router branch-characterisation lemmas (used by C2, C3, C4, C7). -/

theorem rt_why (env : KrishnaAgent.Env) (st : AgentState) (user_message : String)
    (h1 : KrishnaAgent.isWhyKrishnaMsg (pyStrip (pyLower user_message)) = true) :
    KrishnaAgent.get_response env st user_message =
      (KrishnaAgent.RouterResult.rStr KrishnaAgent.whyKrishnaReply,
       KrishnaAgent.agentSave (KrishnaAgent.agentSave st env.now user_message "user")
         env.now KrishnaAgent.whyKrishnaReply "assistant") := by
  unfold KrishnaAgent.get_response KrishnaAgent.get_response_body
  simp [h1]

theorem rt_temporal (env : KrishnaAgent.Env) (st : AgentState) (user_message : String)
    (h1 : KrishnaAgent.isWhyKrishnaMsg (pyStrip (pyLower user_message)) = false)
    (h2 : KrishnaAgent.isWhoAreYouMsg (pyStrip (pyLower user_message)) = false)
    (h3 : KrishnaAgent.isIdentityAffirmMsg (pyStrip (pyLower user_message)) = false)
    (h4 : KrishnaAgent.isHowAreYouMsg (pyStrip (pyLower user_message)) = false)
    (h5 : KrishnaAgent.isTemporalRecallMsg (pyStrip (pyLower user_message)) = true) :
    KrishnaAgent.get_response env st user_message =
      (KrishnaAgent.RouterResult.rStr
        (KrishnaAgent.temporalRecallReply user_message (pyStrip (pyLower user_message))
          (LangChainMemoryManager.get_conversation_messages
            (KrishnaAgent.agentSave st env.now user_message "user").mem st.session_id)),
       KrishnaAgent.agentSave (KrishnaAgent.agentSave st env.now user_message "user") env.now
        (KrishnaAgent.temporalRecallReply user_message (pyStrip (pyLower user_message))
          (LangChainMemoryManager.get_conversation_messages
            (KrishnaAgent.agentSave st env.now user_message "user").mem st.session_id))
        "assistant") := by
  unfold KrishnaAgent.get_response KrishnaAgent.get_response_body
  simp [h1, h2, h3, h4, h5]

theorem rt_followup_ok (env : KrishnaAgent.Env) (st : AgentState) (user_message t : String)
    (hgen : env.gen = Except.ok t)
    (h1 : KrishnaAgent.isWhyKrishnaMsg (pyStrip (pyLower user_message)) = false)
    (h2 : KrishnaAgent.isWhoAreYouMsg (pyStrip (pyLower user_message)) = false)
    (h3 : KrishnaAgent.isIdentityAffirmMsg (pyStrip (pyLower user_message)) = false)
    (h4 : KrishnaAgent.isHowAreYouMsg (pyStrip (pyLower user_message)) = false)
    (h5 : KrishnaAgent.isTemporalRecallMsg (pyStrip (pyLower user_message)) = false)
    (h6 : KrishnaAgent.isFollowupMsg (pyStrip (pyLower user_message)) = true) :
    KrishnaAgent.get_response env st user_message =
      (KrishnaAgent.RouterResult.rStr (pyStrip t),
       KrishnaAgent.agentSave (KrishnaAgent.agentSave st env.now user_message "user")
         env.now (pyStrip t) "assistant") := by
  unfold KrishnaAgent.get_response KrishnaAgent.get_response_body
  simp [h1, h2, h3, h4, h5, h6, hgen]

theorem rt_correction_ok (env : KrishnaAgent.Env) (st : AgentState) (user_message t : String)
    (hgen : env.gen = Except.ok t)
    (h1 : KrishnaAgent.isWhyKrishnaMsg (pyStrip (pyLower user_message)) = false)
    (h2 : KrishnaAgent.isWhoAreYouMsg (pyStrip (pyLower user_message)) = false)
    (h3 : KrishnaAgent.isIdentityAffirmMsg (pyStrip (pyLower user_message)) = false)
    (h4 : KrishnaAgent.isHowAreYouMsg (pyStrip (pyLower user_message)) = false)
    (h5 : KrishnaAgent.isTemporalRecallMsg (pyStrip (pyLower user_message)) = false)
    (h6 : KrishnaAgent.isFollowupMsg (pyStrip (pyLower user_message)) = false)
    (h7 : KrishnaAgent.isCorrectionMsg (pyStrip (pyLower user_message)) = true) :
    KrishnaAgent.get_response env st user_message =
      (KrishnaAgent.RouterResult.rStr (pyStrip t),
       KrishnaAgent.agentSave (KrishnaAgent.agentSave st env.now user_message "user")
         env.now (pyStrip t) "assistant") := by
  unfold KrishnaAgent.get_response KrishnaAgent.get_response_body
  simp [h1, h2, h3, h4, h5, h6, h7, hgen]

theorem rt_default_ok (env : KrishnaAgent.Env) (st : AgentState) (user_message t : String)
    (hgen : env.gen = Except.ok t)
    (h1 : KrishnaAgent.isWhyKrishnaMsg (pyStrip (pyLower user_message)) = false)
    (h2 : KrishnaAgent.isWhoAreYouMsg (pyStrip (pyLower user_message)) = false)
    (h3 : KrishnaAgent.isIdentityAffirmMsg (pyStrip (pyLower user_message)) = false)
    (h4 : KrishnaAgent.isHowAreYouMsg (pyStrip (pyLower user_message)) = false)
    (h5 : KrishnaAgent.isTemporalRecallMsg (pyStrip (pyLower user_message)) = false)
    (h6 : KrishnaAgent.isFollowupMsg (pyStrip (pyLower user_message)) = false)
    (h7 : KrishnaAgent.isCorrectionMsg (pyStrip (pyLower user_message)) = false) :
    KrishnaAgent.get_response env st user_message =
      ((if env.drawScripture then
          KrishnaAgent.RouterResult.rTuple
            (KrishnaAgent.post_process_response (pyStrip t))
            (KrishnaAgent.optStrPy
              (KrishnaAgent.enhance_with_scripture env.documents user_message).2.1)
            (KrishnaAgent.optNatPy
              (KrishnaAgent.enhance_with_scripture env.documents user_message).2.2)
        else
          KrishnaAgent.RouterResult.rStr
            (KrishnaAgent.post_process_response (pyStrip t))),
       KrishnaAgent.agentSave (defaultPreState env st user_message) env.now
         (KrishnaAgent.post_process_response (pyStrip t)) "assistant") := by
  unfold KrishnaAgent.get_response KrishnaAgent.get_response_body defaultPreState
  by_cases hds : env.drawScripture <;>
    simp [h1, h2, h3, h4, h5, h6, h7, hgen, hds]

theorem rt_who (env : KrishnaAgent.Env) (st : AgentState) (user_message : String)
    (h1 : KrishnaAgent.isWhyKrishnaMsg (pyStrip (pyLower user_message)) = false)
    (h2 : KrishnaAgent.isWhoAreYouMsg (pyStrip (pyLower user_message)) = true) :
    KrishnaAgent.get_response env st user_message =
      (KrishnaAgent.RouterResult.rStr KrishnaAgent.whoAreYouReply,
       KrishnaAgent.agentSave (KrishnaAgent.agentSave st env.now user_message "user")
         env.now KrishnaAgent.whoAreYouReply "assistant") := by
  unfold KrishnaAgent.get_response KrishnaAgent.get_response_body
  simp [h1, h2]

theorem rt_identity (env : KrishnaAgent.Env) (st : AgentState) (user_message : String)
    (h1 : KrishnaAgent.isWhyKrishnaMsg (pyStrip (pyLower user_message)) = false)
    (h2 : KrishnaAgent.isWhoAreYouMsg (pyStrip (pyLower user_message)) = false)
    (h3 : KrishnaAgent.isIdentityAffirmMsg (pyStrip (pyLower user_message)) = true) :
    KrishnaAgent.get_response env st user_message =
      (KrishnaAgent.RouterResult.rStr KrishnaAgent.identityAffirmReply,
       KrishnaAgent.agentSave (KrishnaAgent.agentSave st env.now user_message "user")
         env.now KrishnaAgent.identityAffirmReply "assistant") := by
  unfold KrishnaAgent.get_response KrishnaAgent.get_response_body
  simp [h1, h2, h3]

theorem rt_how (env : KrishnaAgent.Env) (st : AgentState) (user_message : String)
    (h1 : KrishnaAgent.isWhyKrishnaMsg (pyStrip (pyLower user_message)) = false)
    (h2 : KrishnaAgent.isWhoAreYouMsg (pyStrip (pyLower user_message)) = false)
    (h3 : KrishnaAgent.isIdentityAffirmMsg (pyStrip (pyLower user_message)) = false)
    (h4 : KrishnaAgent.isHowAreYouMsg (pyStrip (pyLower user_message)) = true) :
    KrishnaAgent.get_response env st user_message =
      (KrishnaAgent.RouterResult.rStr
        (KrishnaAgent.how_are_you_responses.get
          (env.howIdx.cast (show 5 = KrishnaAgent.how_are_you_responses.length from rfl))),
       KrishnaAgent.agentSave (KrishnaAgent.agentSave st env.now user_message "user") env.now
        (KrishnaAgent.how_are_you_responses.get
          (env.howIdx.cast (show 5 = KrishnaAgent.how_are_you_responses.length from rfl)))
        "assistant") := by
  unfold KrishnaAgent.get_response KrishnaAgent.get_response_body
  simp [h1, h2, h3, h4]

theorem rt_followup_err (env : KrishnaAgent.Env) (st : AgentState) (user_message e : String)
    (hgen : env.gen = Except.error e)
    (h1 : KrishnaAgent.isWhyKrishnaMsg (pyStrip (pyLower user_message)) = false)
    (h2 : KrishnaAgent.isWhoAreYouMsg (pyStrip (pyLower user_message)) = false)
    (h3 : KrishnaAgent.isIdentityAffirmMsg (pyStrip (pyLower user_message)) = false)
    (h4 : KrishnaAgent.isHowAreYouMsg (pyStrip (pyLower user_message)) = false)
    (h5 : KrishnaAgent.isTemporalRecallMsg (pyStrip (pyLower user_message)) = false)
    (h6 : KrishnaAgent.isFollowupMsg (pyStrip (pyLower user_message)) = true) :
    KrishnaAgent.get_response env st user_message =
      (KrishnaAgent.RouterResult.rTuple KrishnaAgent.apologyReply
        (KrishnaAgent.PyV.vStr "") (KrishnaAgent.PyV.vStr "0"),
       KrishnaAgent.agentSave st env.now user_message "user") := by
  unfold KrishnaAgent.get_response KrishnaAgent.get_response_body
  simp [h1, h2, h3, h4, h5, h6, hgen]

theorem rt_correction_err (env : KrishnaAgent.Env) (st : AgentState) (user_message e : String)
    (hgen : env.gen = Except.error e)
    (h1 : KrishnaAgent.isWhyKrishnaMsg (pyStrip (pyLower user_message)) = false)
    (h2 : KrishnaAgent.isWhoAreYouMsg (pyStrip (pyLower user_message)) = false)
    (h3 : KrishnaAgent.isIdentityAffirmMsg (pyStrip (pyLower user_message)) = false)
    (h4 : KrishnaAgent.isHowAreYouMsg (pyStrip (pyLower user_message)) = false)
    (h5 : KrishnaAgent.isTemporalRecallMsg (pyStrip (pyLower user_message)) = false)
    (h6 : KrishnaAgent.isFollowupMsg (pyStrip (pyLower user_message)) = false)
    (h7 : KrishnaAgent.isCorrectionMsg (pyStrip (pyLower user_message)) = true) :
    KrishnaAgent.get_response env st user_message =
      (KrishnaAgent.RouterResult.rTuple KrishnaAgent.apologyReply
        (KrishnaAgent.PyV.vStr "") (KrishnaAgent.PyV.vStr "0"),
       KrishnaAgent.agentSave st env.now user_message "user") := by
  unfold KrishnaAgent.get_response KrishnaAgent.get_response_body
  simp [h1, h2, h3, h4, h5, h6, h7, hgen]

theorem rt_default_err (env : KrishnaAgent.Env) (st : AgentState) (user_message e : String)
    (hgen : env.gen = Except.error e)
    (h1 : KrishnaAgent.isWhyKrishnaMsg (pyStrip (pyLower user_message)) = false)
    (h2 : KrishnaAgent.isWhoAreYouMsg (pyStrip (pyLower user_message)) = false)
    (h3 : KrishnaAgent.isIdentityAffirmMsg (pyStrip (pyLower user_message)) = false)
    (h4 : KrishnaAgent.isHowAreYouMsg (pyStrip (pyLower user_message)) = false)
    (h5 : KrishnaAgent.isTemporalRecallMsg (pyStrip (pyLower user_message)) = false)
    (h6 : KrishnaAgent.isFollowupMsg (pyStrip (pyLower user_message)) = false)
    (h7 : KrishnaAgent.isCorrectionMsg (pyStrip (pyLower user_message)) = false) :
    KrishnaAgent.get_response env st user_message =
      (KrishnaAgent.RouterResult.rTuple KrishnaAgent.apologyReply
        (KrishnaAgent.PyV.vStr "") (KrishnaAgent.PyV.vStr "0"),
       defaultPreState env st user_message) := by
  unfold KrishnaAgent.get_response KrishnaAgent.get_response_body defaultPreState
  by_cases hds : env.drawScripture <;>
    simp [h1, h2, h3, h4, h5, h6, h7, hgen, hds]

theorem rt_gen_error (env : KrishnaAgent.Env) (st : AgentState) (user_message : String)
    (e : String) (hgen : env.gen = Except.error e)
    (h1 : KrishnaAgent.isWhyKrishnaMsg (pyStrip (pyLower user_message)) = false)
    (h2 : KrishnaAgent.isWhoAreYouMsg (pyStrip (pyLower user_message)) = false)
    (h3 : KrishnaAgent.isIdentityAffirmMsg (pyStrip (pyLower user_message)) = false)
    (h4 : KrishnaAgent.isHowAreYouMsg (pyStrip (pyLower user_message)) = false)
    (h5 : KrishnaAgent.isTemporalRecallMsg (pyStrip (pyLower user_message)) = false) :
    (KrishnaAgent.get_response env st user_message).1 =
      KrishnaAgent.RouterResult.rTuple KrishnaAgent.apologyReply
        (KrishnaAgent.PyV.vStr "") (KrishnaAgent.PyV.vStr "0") := by
  unfold KrishnaAgent.get_response KrishnaAgent.get_response_body
  by_cases h6 : KrishnaAgent.isFollowupMsg (pyStrip (pyLower user_message)) <;>
  by_cases h7 : KrishnaAgent.isCorrectionMsg (pyStrip (pyLower user_message)) <;>
    simp [h1, h2, h3, h4, h5, h6, h7, hgen]

/-- Every branch of the router records the user's message first: whatever
is returned, the state's conversation log grows by the user row followed
only by rows written later in the same turn. -/
theorem get_response_records_user (env : KrishnaAgent.Env) (st : AgentState)
    (user_message : String) :
    ∃ rest, (KrishnaAgent.get_response env st user_message).2.mem.conversations =
      st.mem.conversations ++
        (⟨st.session_id, env.now, user_message, "user"⟩ : Row) :: rest := by
  by_cases h1 : KrishnaAgent.isWhyKrishnaMsg (pyStrip (pyLower user_message))
  · exact ⟨_, by rw [rt_why env st user_message h1]; simp; rfl⟩
  by_cases h2 : KrishnaAgent.isWhoAreYouMsg (pyStrip (pyLower user_message))
  · exact ⟨_, by rw [rt_who env st user_message (by simpa using h1) h2]; simp; rfl⟩
  by_cases h3 : KrishnaAgent.isIdentityAffirmMsg (pyStrip (pyLower user_message))
  · exact ⟨_, by
      rw [rt_identity env st user_message (by simpa using h1) (by simpa using h2) h3]
      simp
      rfl⟩
  by_cases h4 : KrishnaAgent.isHowAreYouMsg (pyStrip (pyLower user_message))
  · exact ⟨_, by
      rw [rt_how env st user_message (by simpa using h1) (by simpa using h2)
        (by simpa using h3) h4]
      simp
      rfl⟩
  by_cases h5 : KrishnaAgent.isTemporalRecallMsg (pyStrip (pyLower user_message))
  · exact ⟨_, by
      rw [rt_temporal env st user_message (by simpa using h1) (by simpa using h2)
        (by simpa using h3) (by simpa using h4) h5]
      simp
      rfl⟩
  by_cases h6 : KrishnaAgent.isFollowupMsg (pyStrip (pyLower user_message))
  · rcases hgen : env.gen with e | t
    · exact ⟨_, by
        rw [rt_followup_err env st user_message e hgen (by simpa using h1)
          (by simpa using h2) (by simpa using h3) (by simpa using h4)
          (by simpa using h5) h6]
        simp
        rfl⟩
    · exact ⟨_, by
        rw [rt_followup_ok env st user_message t hgen (by simpa using h1)
          (by simpa using h2) (by simpa using h3) (by simpa using h4)
          (by simpa using h5) h6]
        simp
        rfl⟩
  by_cases h7 : KrishnaAgent.isCorrectionMsg (pyStrip (pyLower user_message))
  · rcases hgen : env.gen with e | t
    · exact ⟨_, by
        rw [rt_correction_err env st user_message e hgen (by simpa using h1)
          (by simpa using h2) (by simpa using h3) (by simpa using h4)
          (by simpa using h5) (by simpa using h6) h7]
        simp
        rfl⟩
    · exact ⟨_, by
        rw [rt_correction_ok env st user_message t hgen (by simpa using h1)
          (by simpa using h2) (by simpa using h3) (by simpa using h4)
          (by simpa using h5) (by simpa using h6) h7]
        simp
        rfl⟩
  rcases hgen : env.gen with e | t
  · exact ⟨_, by
      rw [rt_default_err env st user_message e hgen (by simpa using h1)
        (by simpa using h2) (by simpa using h3) (by simpa using h4)
        (by simpa using h5) (by simpa using h6) (by simpa using h7)]
      unfold defaultPreState
      simp
      rfl⟩
  · exact ⟨_, by
      rw [rt_default_ok env st user_message t hgen (by simpa using h1)
        (by simpa using h2) (by simpa using h3) (by simpa using h4)
        (by simpa using h5) (by simpa using h6) (by simpa using h7)]
      unfold defaultPreState
      simp
      rfl⟩

/-! ## C7 — exceptions never escape `get_response`. -/

/-- C7: for every state and message routed to a gateway-calling branch
(follow-up, correction or default — the only branches that can raise), a
raised generation exception never propagates: the outer handler converts
it into the fixed apology text with neutral scripture metadata
`("", "0")`.  Totality of `get_response` is by construction of the
embedding: the `except` at lines 1201-1204 is the only exit for a raise. -/
theorem C7_exception_becomes_apology (env : KrishnaAgent.Env) (st : AgentState)
    (user_message : String) (e : String)
    (hgen : env.gen = Except.error e)
    (h1 : KrishnaAgent.isWhyKrishnaMsg (pyStrip (pyLower user_message)) = false)
    (h2 : KrishnaAgent.isWhoAreYouMsg (pyStrip (pyLower user_message)) = false)
    (h3 : KrishnaAgent.isIdentityAffirmMsg (pyStrip (pyLower user_message)) = false)
    (h4 : KrishnaAgent.isHowAreYouMsg (pyStrip (pyLower user_message)) = false)
    (h5 : KrishnaAgent.isTemporalRecallMsg (pyStrip (pyLower user_message)) = false) :
    (KrishnaAgent.get_response env st user_message).1 =
      KrishnaAgent.RouterResult.rTuple KrishnaAgent.apologyReply
        (KrishnaAgent.PyV.vStr "") (KrishnaAgent.PyV.vStr "0") :=
  rt_gen_error env st user_message e hgen h1 h2 h3 h4 h5

/-- Witness for C7: a concrete failing gateway and the message "hello my
good friend", which matches no canonical branch. -/
theorem C7_witness :
    failingEnv.gen = Except.error "APIError" ∧
    (KrishnaAgent.get_response failingEnv freshState "hello my good friend").1 =
      KrishnaAgent.RouterResult.rTuple KrishnaAgent.apologyReply
        (KrishnaAgent.PyV.vStr "") (KrishnaAgent.PyV.vStr "0") :=
  ⟨rfl,
   C7_exception_becomes_apology failingEnv freshState "hello my good friend" "APIError" rfl
     (by decide) (by decide) (by decide) (by decide) (by decide)⟩

/-! ## C2 — the triple-shape claim fails; branches return bare strings. -/

/-- C2 counterexample: at the concrete input "why are you krishna", the
canonical branch returns the bare string "Because you reached for me." —
not a `(response_text, scripture_source, scripture_id)` triple, refuting
"the result always has exactly this three-component shape". -/
theorem C2_counterexample_bare_string :
    (KrishnaAgent.get_response benignEnv freshState "why are you krishna").1 =
      KrishnaAgent.RouterResult.rStr "Because you reached for me." ∧
    KrishnaAgent.isTriple
      (KrishnaAgent.get_response benignEnv freshState "why are you krishna").1 = false := by
  constructor
  · rw [rt_why benignEnv freshState "why are you krishna" (by decide)]
    rfl
  · rw [rt_why benignEnv freshState "why are you krishna" (by decide)]
    rfl

/-- C2 (amended): every branch first records the user's message; but the
canonical, temporal, follow-up and correction branches — and the default
path when the scripture draw misses — return a bare response string, and
only the default path with a scripture draw returns a triple, whose
source/id components are the raw retrieval values (possibly Python `None`
rather than `""`/`"0"`); the normalised `("", "0")` triple comes only from
the exception handler. -/
theorem C2_records_user_and_result_shape (env : KrishnaAgent.Env) (st : AgentState)
    (user_message : String) :
    (∃ rest, (KrishnaAgent.get_response env st user_message).2.mem.conversations =
      st.mem.conversations ++
        (⟨st.session_id, env.now, user_message, "user"⟩ : Row) :: rest) ∧
    (∀ t, env.gen = Except.ok t → env.drawScripture = false →
      ∃ s, (KrishnaAgent.get_response env st user_message).1 =
        KrishnaAgent.RouterResult.rStr s) ∧
    (∀ t, env.gen = Except.ok t → env.drawScripture = true →
      KrishnaAgent.isWhyKrishnaMsg (pyStrip (pyLower user_message)) = false →
      KrishnaAgent.isWhoAreYouMsg (pyStrip (pyLower user_message)) = false →
      KrishnaAgent.isIdentityAffirmMsg (pyStrip (pyLower user_message)) = false →
      KrishnaAgent.isHowAreYouMsg (pyStrip (pyLower user_message)) = false →
      KrishnaAgent.isTemporalRecallMsg (pyStrip (pyLower user_message)) = false →
      KrishnaAgent.isFollowupMsg (pyStrip (pyLower user_message)) = false →
      KrishnaAgent.isCorrectionMsg (pyStrip (pyLower user_message)) = false →
      (KrishnaAgent.get_response env st user_message).1 =
        KrishnaAgent.RouterResult.rTuple
          (KrishnaAgent.post_process_response (pyStrip t))
          (KrishnaAgent.optStrPy
            (KrishnaAgent.enhance_with_scripture env.documents user_message).2.1)
          (KrishnaAgent.optNatPy
            (KrishnaAgent.enhance_with_scripture env.documents user_message).2.2)) := by
  refine ⟨get_response_records_user env st user_message, ?_, ?_⟩
  · intro t hgen hds
    by_cases h1 : KrishnaAgent.isWhyKrishnaMsg (pyStrip (pyLower user_message))
    · exact ⟨_, by rw [rt_why env st user_message h1]⟩
    by_cases h2 : KrishnaAgent.isWhoAreYouMsg (pyStrip (pyLower user_message))
    · exact ⟨_, by rw [rt_who env st user_message (by simpa using h1) h2]⟩
    by_cases h3 : KrishnaAgent.isIdentityAffirmMsg (pyStrip (pyLower user_message))
    · exact ⟨_, by
        rw [rt_identity env st user_message (by simpa using h1) (by simpa using h2) h3]⟩
    by_cases h4 : KrishnaAgent.isHowAreYouMsg (pyStrip (pyLower user_message))
    · exact ⟨_, by
        rw [rt_how env st user_message (by simpa using h1) (by simpa using h2)
          (by simpa using h3) h4]⟩
    by_cases h5 : KrishnaAgent.isTemporalRecallMsg (pyStrip (pyLower user_message))
    · exact ⟨_, by
        rw [rt_temporal env st user_message (by simpa using h1) (by simpa using h2)
          (by simpa using h3) (by simpa using h4) h5]⟩
    by_cases h6 : KrishnaAgent.isFollowupMsg (pyStrip (pyLower user_message))
    · exact ⟨_, by
        rw [rt_followup_ok env st user_message t hgen (by simpa using h1)
          (by simpa using h2) (by simpa using h3) (by simpa using h4)
          (by simpa using h5) h6]⟩
    by_cases h7 : KrishnaAgent.isCorrectionMsg (pyStrip (pyLower user_message))
    · exact ⟨_, by
        rw [rt_correction_ok env st user_message t hgen (by simpa using h1)
          (by simpa using h2) (by simpa using h3) (by simpa using h4)
          (by simpa using h5) (by simpa using h6) h7]⟩
    · refine ⟨KrishnaAgent.post_process_response (pyStrip t), ?_⟩
      rw [rt_default_ok env st user_message t hgen (by simpa using h1)
        (by simpa using h2) (by simpa using h3) (by simpa using h4)
        (by simpa using h5) (by simpa using h6) (by simpa using h7)]
      simp [hds]
  · intro t hgen hds h1 h2 h3 h4 h5 h6 h7
    rw [rt_default_ok env st user_message t hgen h1 h2 h3 h4 h5 h6 h7]
    simp [hds]

/-- Witness for C2: the concrete default-path run used by the inner
implications, with the scripture draw missing. -/
theorem C2_witness :
    benignEnv.gen = Except.ok "Generated reply here" ∧
    benignEnv.drawScripture = false ∧
    (∃ s, (KrishnaAgent.get_response benignEnv freshState "hello my good friend").1 =
      KrishnaAgent.RouterResult.rStr s) ∧
    (∃ rest,
      (KrishnaAgent.get_response benignEnv freshState "hello my good friend").2.mem.conversations =
        freshState.mem.conversations ++
          (⟨"s1", "2024-01-02T10:00:00", "hello my good friend", "user"⟩ : Row) :: rest) :=
  ⟨rfl, rfl,
   (C2_records_user_and_result_shape benignEnv freshState "hello my good friend").2.1
     "Generated reply here" rfl rfl,
   (C2_records_user_and_result_shape benignEnv freshState "hello my good friend").1⟩

/-! ## C3 — post-processing is applied only on the default path. -/

/-- C3 counterexample: at the concrete short follow-up "why?" with the
gateway producing a reply that matches the dog denylist, the follow-up
branch returns that reply verbatim; the claimed common post-processing
would have replaced it whole with the fixed deflection string. -/
theorem C3_counterexample_followup_unprocessed :
    (KrishnaAgent.get_response dogEnv freshState "why?").1 =
      KrishnaAgent.RouterResult.rStr "Let me tell you about your dog." ∧
    KrishnaAgent.post_process_response "Let me tell you about your dog." =
      KrishnaAgent.dog_deflection ∧
    "Let me tell you about your dog." ≠ KrishnaAgent.dog_deflection := by
  refine ⟨?_, by decide, by decide⟩
  rw [rt_followup_ok dogEnv freshState "why?" "Let me tell you about your dog." rfl
    (by decide) (by decide) (by decide) (by decide) (by decide) (by decide)]
  rfl

/-- C3 (amended): only the default generative path applies the
post-processing (denylist deflection, truncation, emoji capping,
whitespace renormalisation); the follow-up and correction branches return
the gateway reply with only surrounding-whitespace stripping. -/
theorem C3_postprocessing_only_default (env : KrishnaAgent.Env) (st : AgentState)
    (user_message t : String)
    (hgen : env.gen = Except.ok t)
    (h1 : KrishnaAgent.isWhyKrishnaMsg (pyStrip (pyLower user_message)) = false)
    (h2 : KrishnaAgent.isWhoAreYouMsg (pyStrip (pyLower user_message)) = false)
    (h3 : KrishnaAgent.isIdentityAffirmMsg (pyStrip (pyLower user_message)) = false)
    (h4 : KrishnaAgent.isHowAreYouMsg (pyStrip (pyLower user_message)) = false)
    (h5 : KrishnaAgent.isTemporalRecallMsg (pyStrip (pyLower user_message)) = false) :
    (KrishnaAgent.isFollowupMsg (pyStrip (pyLower user_message)) = true →
      (KrishnaAgent.get_response env st user_message).1 =
        KrishnaAgent.RouterResult.rStr (pyStrip t)) ∧
    (KrishnaAgent.isFollowupMsg (pyStrip (pyLower user_message)) = false →
      KrishnaAgent.isCorrectionMsg (pyStrip (pyLower user_message)) = true →
      (KrishnaAgent.get_response env st user_message).1 =
        KrishnaAgent.RouterResult.rStr (pyStrip t)) ∧
    (KrishnaAgent.isFollowupMsg (pyStrip (pyLower user_message)) = false →
      KrishnaAgent.isCorrectionMsg (pyStrip (pyLower user_message)) = false →
      KrishnaAgent.textOf (KrishnaAgent.get_response env st user_message).1 =
        KrishnaAgent.post_process_response (pyStrip t)) := by
  refine ⟨?_, ?_, ?_⟩
  · intro h6
    rw [rt_followup_ok env st user_message t hgen h1 h2 h3 h4 h5 h6]
  · intro h6 h7
    rw [rt_correction_ok env st user_message t hgen h1 h2 h3 h4 h5 h6 h7]
  · intro h6 h7
    rw [rt_default_ok env st user_message t hgen h1 h2 h3 h4 h5 h6 h7]
    by_cases hds : env.drawScripture <;> simp [hds, KrishnaAgent.textOf]

/-- Witness for C3: the follow-up and default cases at concrete inputs. -/
theorem C3_witness :
    (KrishnaAgent.get_response benignEnv freshState "why?").1 =
      KrishnaAgent.RouterResult.rStr (pyStrip "Generated reply here") ∧
    KrishnaAgent.textOf (KrishnaAgent.get_response benignEnv freshState
        "hello my good friend").1 =
      KrishnaAgent.post_process_response (pyStrip "Generated reply here") :=
  ⟨(C3_postprocessing_only_default benignEnv freshState "why?" "Generated reply here" rfl
      (by decide) (by decide) (by decide) (by decide) (by decide)).1 (by decide),
   (C3_postprocessing_only_default benignEnv freshState "hello my good friend"
      "Generated reply here" rfl
      (by decide) (by decide) (by decide) (by decide) (by decide)).2.2
     (by decide) (by decide)⟩

/-! ## C4 — temporal recall: found topics get a fixed acknowledgement, not
an elapsed-time phrase. -/

/-- C4 counterexample: with a prior message about meditation in the
buffer, the temporal question "when did we talk about meditation?" finds
the topic but answers with the fixed acknowledgement — containing no
minutes/hours/days elapsed-time phrase — because history entries carry no
timestamp. -/
theorem C4_counterexample_no_elapsed_time :
    (KrishnaAgent.get_response benignEnv meditationState
        "when did we talk about meditation?").1 =
      KrishnaAgent.RouterResult.rStr KrishnaAgent.foundEarlierReply ∧
    substrB "minute" KrishnaAgent.foundEarlierReply = false ∧
    substrB "hour" KrishnaAgent.foundEarlierReply = false ∧
    substrB "day" KrishnaAgent.foundEarlierReply = false ∧
    substrB "ago" KrishnaAgent.foundEarlierReply = false := by
  refine ⟨?_, by decide, by decide, by decide, by decide⟩
  rw [rt_temporal benignEnv meditationState "when did we talk about meditation?"
    (by decide) (by decide) (by decide) (by decide) (by decide)]
  decide

/-- C4 (amended): the temporal-recall branch extracts the topic after
"about", scans the history skipping the trigger, and — because retrieved
history entries never carry a timestamp, making the elapsed-time
computation unreachable — answers a found topic with the fixed
acknowledgement; an unfound topic falls back to the topics listing when
`_extract_key_topics` finds topics and to the generic admission
otherwise. -/
theorem C4_temporal_recall_behaviour (env : KrishnaAgent.Env) (st : AgentState)
    (user_message : String)
    (h1 : KrishnaAgent.isWhyKrishnaMsg (pyStrip (pyLower user_message)) = false)
    (h2 : KrishnaAgent.isWhoAreYouMsg (pyStrip (pyLower user_message)) = false)
    (h3 : KrishnaAgent.isIdentityAffirmMsg (pyStrip (pyLower user_message)) = false)
    (h4 : KrishnaAgent.isHowAreYouMsg (pyStrip (pyLower user_message)) = false)
    (h5 : KrishnaAgent.isTemporalRecallMsg (pyStrip (pyLower user_message)) = true) :
    ((KrishnaAgent.get_response env st user_message).1 =
      KrishnaAgent.RouterResult.rStr
        (KrishnaAgent.temporalRecallReply user_message (pyStrip (pyLower user_message))
          (LangChainMemoryManager.get_conversation_messages
            (KrishnaAgent.agentSave st env.now user_message "user").mem st.session_id))) ∧
    (∀ (um lw : String) (msgs : List ChatMsg),
      (KrishnaAgent.findPriorTopicMsg (KrishnaAgent.temporalTopic um lw) msgs).isSome →
      KrishnaAgent.temporalRecallReply um lw msgs = KrishnaAgent.foundEarlierReply) ∧
    (∀ (um lw : String) (msgs : List ChatMsg),
      KrishnaAgent.findPriorTopicMsg (KrishnaAgent.temporalTopic um lw) msgs = none →
      KrishnaAgent.temporalRecallReply um lw msgs = KrishnaAgent.genericAdmissionReply ∨
      KrishnaAgent.temporalRecallReply um lw msgs =
        KrishnaAgent.recallListingHead ++ KrishnaAgent._extract_key_topics msgs ++
          ". Which of these interests you now?") := by
  refine ⟨?_, ?_, ?_⟩
  · rw [rt_temporal env st user_message h1 h2 h3 h4 h5]
  · intro um lw msgs hsome
    rcases Option.isSome_iff_exists.mp hsome with ⟨m, hm⟩
    unfold KrishnaAgent.temporalRecallReply
    rw [hm]
  · intro um lw msgs hnone
    unfold KrishnaAgent.temporalRecallReply
    rw [hnone]
    by_cases hkt : substrB "No specific topics found" (KrishnaAgent._extract_key_topics msgs)
    · left
      simp [hkt]
    · right
      simp [hkt]

/-- Witness for C4: the concrete temporal question about meditation. -/
theorem C4_witness :
    (KrishnaAgent.get_response benignEnv meditationState
        "when did we talk about meditation?").1 =
      KrishnaAgent.RouterResult.rStr
        (KrishnaAgent.temporalRecallReply "when did we talk about meditation?"
          (pyStrip (pyLower "when did we talk about meditation?"))
          (LangChainMemoryManager.get_conversation_messages
            (KrishnaAgent.agentSave meditationState benignEnv.now
              "when did we talk about meditation?" "user").mem
            meditationState.session_id)) :=
  (C4_temporal_recall_behaviour benignEnv meditationState
    "when did we talk about meditation?"
    (by decide) (by decide) (by decide) (by decide) (by decide)).1

end KrishnaAI
